import Mathlib

/-!
Verification development for the zeiTown turn-resolution engine
(src/src/store/game.ts).  The game store is embedded shallowly: every
store command becomes a pure function from a game state (plus the dice
values that the original draws from its random number generator) to the
next game state.  The board catalog (data/board.ts) is an external
collaborator of the engine, so all definitions are parameterised by a
`Board` value; a small specimen board satisfying the catalog contract
from the specification is provided for concrete test scenarios.
-/

namespace ZeiTown

/-- Tile categories, from the board catalog contract. -/
inductive TileType where
  | start
  | property
  | railway
  | utility
  | chance
  | chest
  | tax
  | parking
  | jail
  | gotojail
  deriving DecidableEq, Repr, BEq

/-- A board tile.  Missing optional fields of the TS objects are `none`;
a missing `id` is the empty string (the source relies on falsiness of
the empty string for tiles without an id). -/
structure TileDefinition where
  id : String
  type : TileType
  name : String
  price : Option Int := none
  rent : Option Int := none
  rentLevels : List Int := []
  houseCost : Option Int := none
  mortgage : Option Int := none
  group : Option String := none
  deriving Repr, BEq, DecidableEq

instance : Inhabited TileDefinition :=
  ⟨{ id := "", type := TileType.parking, name := "" }⟩

/-- Card effects, as consumed by handleChanceOrChest in game.ts. -/
inductive CardEffect where
  | collect (amount : Int)
  | pay (amount : Int)
  | move (target : Int)
  | moveRelative (offset : Int)
  | advanceToNext (tileType : TileType)
  | repair (houseCost hotelCost : Int)
  | getOutOfJail
  | goToJail
  | luckCheck (success failure : Int)
  deriving Repr, BEq, DecidableEq

structure CardDefinition where
  id : String
  title : String
  description : String
  effect : CardEffect
  deriving Repr, BEq, DecidableEq

instance : Inhabited CardDefinition :=
  ⟨{ id := "", title := "", description := "", effect := CardEffect.collect 0 }⟩

/-- The external board catalog: the tile sequence and the two card decks. -/
structure Board where
  tiles : List TileDefinition
  chanceCards : List CardDefinition
  chestCards : List CardDefinition
  deriving Repr

structure Player where
  id : String
  name : String
  color : String
  funds : Int
  position : Nat
  tokenId : String
  inJail : Bool
  jailTurns : Nat
  hasGetOutOfJail : Bool
  deriving Repr, BEq, DecidableEq

instance : Inhabited Player :=
  ⟨{ id := "", name := "", color := "", funds := 0, position := 0,
     tokenId := "", inJail := false, jailTurns := 0, hasGetOutOfJail := false }⟩

structure PropertyState where
  ownerId : Option String
  houses : Nat
  mortgaged : Bool
  deriving Repr, BEq, DecidableEq

/-- Record of per-tile property state, keyed by tile id.  The TS source
uses a string-keyed object; entries here are listed in insertion order
and keys are unique in every state the engine builds. -/
abbrev PropMap := List (String × PropertyState)

inductive GamePhase where
  | lobby
  | setup
  | rolling
  | trading
  | summary
  deriving DecidableEq, Repr, BEq

structure TradeProposal where
  id : String
  fromId : String
  toId : String
  giveCash : Int
  receiveCash : Int
  giveTiles : List String
  receiveTiles : List String
  deriving Repr, BEq, DecidableEq

/-- Payload of sendTradeProposal (a TradeProposal without its id). -/
structure TradePayload where
  fromId : String
  toId : String
  giveCash : Int
  receiveCash : Int
  giveTiles : List String
  receiveTiles : List String
  deriving Repr, BEq, DecidableEq

structure AuctionState where
  tileId : String
  excludedPlayerId : Option String
  highestBid : Int
  highestBidderId : Option String
  open' : Bool
  deriving Repr, BEq, DecidableEq

inductive PendingAction where
  | purchase (tileId playerId : String) (price : Int)
  | upgrade (tileId playerId : String) (price : Int) (nextLevel : Nat)
  deriving Repr, BEq, DecidableEq

structure CardSnapshot where
  type : String
  title : String
  description : String
  deriving Repr, BEq, DecidableEq

structure GameState where
  players : List Player
  phase : GamePhase
  playerCount : Nat
  currentTurnIndex : Nat
  lastRoll : Nat × Nat
  consecutiveDoubles : Nat
  propertyState : PropMap
  pendingAction : Option PendingAction
  pendingNextTurnIndex : Option Nat
  chanceIndex : Nat
  chestIndex : Nat
  lastCard : Option CardSnapshot
  logs : List String
  pendingTrade : Option TradeProposal
  auction : Option AuctionState
  lastMovementPath : List Nat
  winnerId : Option String
  deriving Repr, BEq, DecidableEq

/-- Setup-time player data (the Omit used by addPlayer and setPlayers). -/
structure PlayerSeed where
  id : String
  name : String
  color : String
  tokenId : String
  deriving Repr, BEq, DecidableEq

def START_FUNDS : Int := 1500
def PASS_START_BONUS : Int := 200
def MAX_LOGS : Nat := 6
def MAX_UPGRADE_LEVEL : Nat := 5
def MAX_JAIL_TURNS : Nat := 3

/-- JavaScript Math.round of the rational num/den (den positive):
floor(num/den + 1/2), i.e. rounding halves toward positive infinity. -/
def jsRound (num den : Int) : Int := (2 * num + den) / (2 * den)

/-- Ceiling of the rational num/den for positive den (Math.ceil of an
exact quotient). -/
def ceilDiv (num den : Int) : Int := -((-num) / den)

/-- START_INDEX of game.ts: index of the first start tile.  The catalog
contract guarantees such a tile exists, so the fallback is unreachable. -/
def startIndex (B : Board) : Nat :=
  match B.tiles.findIdx? (fun tile => tile.type == TileType.start) with
  | some i => i
  | none => 0

/-- JAIL_INDEX of game.ts: index of the just-visiting tile.  The catalog
contract guarantees such a tile exists, so the fallback is unreachable. -/
def jailIndex (B : Board) : Nat :=
  match B.tiles.findIdx? (fun tile => tile.id == "just-visiting") with
  | some i => i
  | none => 10

def PURCHASABLE_TYPES : List TileType :=
  [TileType.property, TileType.railway, TileType.utility]

def isPurchasable (t : TileType) : Bool := PURCHASABLE_TYPES.contains t

/-- createPropertyState: one unowned entry per purchasable tile with an id. -/
def createPropertyState (B : Board) : PropMap :=
  (B.tiles.filter (fun tile => tile.id != "" && isPurchasable tile.type)).map
    (fun tile => (tile.id, { ownerId := none, houses := 0, mortgaged := false }))

/-- Record lookup on the property map. -/
def lookupProp (ps : PropMap) (tileId : String) : Option PropertyState :=
  (ps.find? (fun e => e.fst == tileId)).map (fun e => e.snd)

/-- In-place mutation of the entry with the given key (JS object keys are
unique, so mapping over all matching entries is the record update). -/
def updateProp (ps : PropMap) (tileId : String) (f : PropertyState → PropertyState) : PropMap :=
  ps.map (fun e => if e.fst == tileId then (e.fst, f e.snd) else e)

/-- Mutation through the object returned by players.find: updates the
first player with the given id, as Array.prototype.find would. -/
def updateFirstById (players : List Player) (pid : String) (f : Player → Player) : List Player :=
  match players with
  | [] => []
  | p :: rest => if p.id == pid then f p :: rest else p :: updateFirstById rest pid f

def addLog (logs : List String) (entry : String) : List String :=
  let next := logs ++ [entry]
  next.drop (next.length - MAX_LOGS)

/-- normalizePosition: JS ((value % length) + length) % length with the
truncated remainder of JS, landing in [0, length). -/
def normalizePosition (B : Board) (value : Int) : Nat :=
  let length : Int := B.tiles.length
  (Int.tmod (Int.tmod value length + length) length).toNat

def ownsFullSet (B : Board) (ownerId : String) (tile : TileDefinition) (ps : PropMap) : Bool :=
  match tile.group with
  | none => false
  | some g =>
    (B.tiles.filter (fun t => t.group == some g)).all (fun groupTile =>
      groupTile.id != "" &&
        match lookupProp ps groupTile.id with
        | some meta => meta.ownerId == some ownerId
        | none => false)

def countOwnedInGroup (B : Board) (ownerId : String) (tile : TileDefinition) (ps : PropMap) : Nat :=
  match tile.group with
  | none => 0
  | some g =>
    (B.tiles.filter (fun t =>
      t.group == some g && t.id != "" &&
        ((lookupProp ps t.id).map (fun m => m.ownerId) == some (some ownerId)))).length

/-- Array.from(new Set(items)): deduplication keeping first occurrences. -/
def uniqueArray (items : List String) : List String := items.eraseDups

def computeMovementPath (B : Board) (start : Nat) (steps : Int) : List Nat :=
  if steps == 0 then []
  else
    let direction : Int := if steps ≥ 0 then 1 else -1
    let total := steps.natAbs
    (List.range total).map (fun i =>
      normalizePosition B ((start : Int) + direction * ((i : Int) + 1)))

def computeForwardPath (B : Board) (start target : Nat) : List Nat :=
  let length : Int := B.tiles.length
  let steps := Int.tmod ((target : Int) - (start : Int) + length) length
  computeMovementPath B start steps

def computeWinnerId (players : List Player) : Option String :=
  if players.length == 1 then (players.getD 0 default).id else none

def calculateRent (B : Board) (tile : TileDefinition) (playerRoll : Nat)
    (ps : PropMap) (ownerId : String) : Int :=
  if tile.id == "" then 0
  else
    match lookupProp ps tile.id with
    | none => 0
    | some propertyMeta =>
      if tile.type == TileType.railway then
        let owned := countOwnedInGroup B ownerId tile ps
        25 * (max 1 owned : Nat)
      else if tile.type == TileType.utility then
        let owned := countOwnedInGroup B ownerId tile ps
        (playerRoll : Int) * (if owned ≥ 2 then 10 else 4)
      else
        let rent : Int := match tile.rent with
          | some r => r
          | none => max 10 (jsRound ((tile.price.getD 0) * 10) 100)
        if propertyMeta.houses > 0 && tile.rentLevels.length != 0 then
          let levelIndex := min propertyMeta.houses tile.rentLevels.length - 1
          tile.rentLevels.getD levelIndex rent
        else if ownsFullSet B ownerId tile ps then
          rent * 2
        else
          rent

/-- applyPassStartBonus: credits the bonus and reports whether it fired. -/
def applyPassStartBonus (player : Player) (previous next : Nat) (movedForward : Bool) :
    Player × Bool :=
  if movedForward && decide (next < previous) then
    ({ player with funds := player.funds + PASS_START_BONUS }, true)
  else
    (player, false)

/-- JS falsiness of an optional number (undefined or zero). -/
def isFalsyInt : Option Int → Bool
  | none => true
  | some v => v == 0

def getMortgageValue (tile : TileDefinition) : Int :=
  if isFalsyInt tile.price && isFalsyInt tile.mortgage then 0
  else
    match tile.mortgage with
    | some m => m
    | none => jsRound (tile.price.getD 0) 2

def determineUpgradeCost (tile : TileDefinition) (nextLevel : Nat) : Int :=
  match tile.houseCost with
  | none => 0
  | some hc =>
    if hc == 0 then 0
    else if nextLevel ≤ 4 then hc
    else hc * 2

def collapseAux (prev : Nat) : List Nat → List Nat
  | [] => []
  | x :: rest => if x == prev then collapseAux prev rest else x :: collapseAux x rest

def collapseConsecutiveDuplicates : List Nat → List Nat
  | [] => []
  | x :: rest => x :: collapseAux x rest

def getActiveTile (B : Board) (player : Player) : TileDefinition :=
  B.tiles.getD player.position (B.tiles.getD 0 default)

def sendPlayerToJail (B : Board) (player : Player) : Player :=
  { player with position := jailIndex B, inJail := true, jailTurns := 0 }

structure PaymentOutcome where
  players : List Player
  propertyState : PropMap
  logs : List String
  removedIndex : Option Nat
  bankruptPlayerId : Option String
  deriving Repr, BEq, DecidableEq

/-- handleBankruptcy (game.ts lines 280-321): removes the bankrupt player
and reassigns every property they owned to the creditor, or clears it to
the unowned pool when there is no creditor. -/
def handleBankruptcy (players : List Player) (ps : PropMap) (bankruptId : String)
    (creditorId : Option String) (logs : List String) : PaymentOutcome :=
  match players.findIdx? (fun player => player.id == bankruptId) with
  | none =>
    { players := players, propertyState := ps, logs := logs,
      removedIndex := none, bankruptPlayerId := none }
  | some index =>
    let bankruptPlayer := players.getD index default
    let creditor : Option Player :=
      creditorId.bind (fun cid => players.find? (fun player => player.id == cid))
    let nextPropertyState := ps.map (fun e =>
      if e.snd.ownerId == some bankruptPlayer.id then
        match creditor with
        | some c => (e.fst, { e.snd with ownerId := some c.id })
        | none => (e.fst, { e.snd with ownerId := none, houses := 0, mortgaged := false })
      else e)
    let resultPlayers := players.eraseIdx index
    let message := match creditor with
      | some c => bankruptPlayer.name ++ " went bankrupt to " ++ c.name ++ "."
      | none => bankruptPlayer.name ++ " went bankrupt to the municipality."
    { players := resultPlayers, propertyState := nextPropertyState,
      logs := addLog logs message, removedIndex := some index,
      bankruptPlayerId := some bankruptPlayer.id }

/-- payAmount (game.ts lines 323-362): the ledger payment primitive. -/
def payAmount (players : List Player) (ps : PropMap) (payerId : String)
    (receiverId : Option String) (amount : Int) (logs : List String) : PaymentOutcome :=
  if amount ≤ 0 then
    { players := players, propertyState := ps, logs := logs,
      removedIndex := none, bankruptPlayerId := none }
  else
    match players.findIdx? (fun player => player.id == payerId) with
    | none =>
      { players := players, propertyState := ps, logs := logs,
        removedIndex := none, bankruptPlayerId := none }
    | some payerIndex =>
      let payer := players.getD payerIndex default
      if payer.funds ≥ amount then
        let players1 := players.set payerIndex { payer with funds := payer.funds - amount }
        let players2 := match receiverId with
          | some rid => updateFirstById players1 rid
              (fun receiver => { receiver with funds := receiver.funds + amount })
          | none => players1
        { players := players2, propertyState := ps, logs := logs,
          removedIndex := none, bankruptPlayerId := none }
      else
        let available := payer.funds
        let players1 := match receiverId with
          | some rid =>
            if available > 0 then
              updateFirstById players rid
                (fun receiver => { receiver with funds := receiver.funds + available })
            else players
          | none => players
        let players2 := updateFirstById players1 payer.id (fun p => { p with funds := 0 })
        handleBankruptcy players2 ps payer.id receiverId logs

structure JailOutcome where
  canMove : Bool
  players : List Player
  propertyState : PropMap
  logs : List String
  removedIndex : Option Nat
  deriving Repr, BEq, DecidableEq

/-- resolveJailState (game.ts lines 370-442).  The acting player is the
object at currentIndex of the player list; mutations through that alias
are modelled as updates at that index. -/
def resolveJailState (currentIndex : Nat) (dieA dieB : Nat)
    (players : List Player) (ps : PropMap) (logs : List String) : JailOutcome :=
  let player := players.getD currentIndex default
  if !player.inJail then
    { canMove := true, players := players, propertyState := ps,
      logs := logs, removedIndex := none }
  else if player.hasGetOutOfJail then
    let players1 := players.set currentIndex
      { player with hasGetOutOfJail := false, inJail := false, jailTurns := 0 }
    { canMove := true, players := players1, propertyState := ps,
      logs := addLog logs (player.name ++ " used a release permit."),
      removedIndex := none }
  else if dieA == dieB then
    let players1 := players.set currentIndex { player with inJail := false, jailTurns := 0 }
    { canMove := true, players := players1, propertyState := ps,
      logs := addLog logs (player.name ++ " rolled doubles and left city hall."),
      removedIndex := none }
  else
    let player1 := { player with jailTurns := player.jailTurns + 1 }
    let players1 := players.set currentIndex player1
    let nextLogs := addLog logs (player.name ++ " waits in city hall.")
    if player1.jailTurns ≥ MAX_JAIL_TURNS then
      let result := payAmount players1 ps player1.id none 200 nextLogs
      if result.bankruptPlayerId == some player1.id then
        { canMove := false, players := result.players,
          propertyState := result.propertyState, logs := result.logs,
          removedIndex := result.removedIndex }
      else
        let players2 := updateFirstById result.players player1.id
          (fun holder => { holder with inJail := false, jailTurns := 0 })
        { canMove := true, players := players2,
          propertyState := result.propertyState,
          logs := addLog result.logs (player.name ++ " paid the exit fee."),
          removedIndex := result.removedIndex }
    else
      { canMove := false, players := players1, propertyState := ps,
        logs := nextLogs, removedIndex := none }

structure CardOutcome where
  players : List Player
  propertyState : PropMap
  logs : List String
  followUpPosition : Option Nat
  movementPath : List Nat
  deriving Repr, BEq, DecidableEq

/-- Offset scan of the advance-to-next card branch: the first offset in
1..length whose tile has the requested type. -/
def findAdvanceOffset (B : Board) (position : Nat) (tt : TileType) : Option Nat :=
  (List.range B.tiles.length).findSome? (fun i =>
    let offset := i + 1
    if (B.tiles.getD ((position + offset) % B.tiles.length) default).type == tt then
      some offset
    else none)

/-- handleChanceOrChest (game.ts lines 444-565).  The fresh dice pair the
source rolls inside the luck-check branch is passed in as luckA, luckB. -/
def handleChanceOrChest (B : Board) (card : CardDefinition) (currentIndex : Nat)
    (players : List Player) (ps : PropMap) (logs : List String)
    (luckA luckB : Nat) : CardOutcome :=
  let player := players.getD currentIndex default
  let nextLogs := addLog logs card.title
  match card.effect with
  | CardEffect.collect amount =>
    let players1 := players.set currentIndex { player with funds := player.funds + amount }
    { players := players1, propertyState := ps,
      logs := addLog nextLogs (player.name ++ " received funds."),
      followUpPosition := none, movementPath := [] }
  | CardEffect.pay amount =>
    let result := payAmount players ps player.id none amount nextLogs
    { players := result.players, propertyState := result.propertyState,
      logs := result.logs, followUpPosition := none, movementPath := [] }
  | CardEffect.move target =>
    let previous := player.position
    let newPos := normalizePosition B target
    let movementPath := computeForwardPath B previous newPos
    let moved := applyPassStartBonus { player with position := newPos } previous newPos true
    let nextLogs2 :=
      if moved.snd then addLog nextLogs (player.name ++ " collected the start bonus.")
      else nextLogs
    { players := players.set currentIndex moved.fst, propertyState := ps,
      logs := nextLogs2, followUpPosition := some newPos, movementPath := movementPath }
  | CardEffect.moveRelative offset =>
    let previous := player.position
    let newPos := normalizePosition B ((previous : Int) + offset)
    let movementPath := computeMovementPath B previous offset
    let player1 := { player with position := newPos }
    let player2 :=
      if offset > 0 then (applyPassStartBonus player1 previous newPos true).fst
      else player1
    { players := players.set currentIndex player2, propertyState := ps,
      logs := nextLogs, followUpPosition := some newPos, movementPath := movementPath }
  | CardEffect.advanceToNext tt =>
    match findAdvanceOffset B player.position tt with
    | none =>
      { players := players, propertyState := ps, logs := nextLogs,
        followUpPosition := none, movementPath := [] }
    | some offset =>
      let previous := player.position
      let newPos := normalizePosition B ((previous : Int) + (offset : Int))
      let movementPath := computeMovementPath B previous (offset : Int)
      let moved := applyPassStartBonus { player with position := newPos } previous newPos true
      { players := players.set currentIndex moved.fst, propertyState := ps,
        logs := nextLogs, followUpPosition := some newPos, movementPath := movementPath }
  | CardEffect.repair houseCost hotelCost =>
    let total := (ps.filter (fun e => e.snd.ownerId == some player.id)).foldl
      (fun acc e =>
        match B.tiles.find? (fun t => t.id == e.fst) with
        | none => acc
        | some _ =>
          let houses : Int := (min e.snd.houses (MAX_UPGRADE_LEVEL - 1) : Nat)
          let landmarks : Int := if e.snd.houses == MAX_UPGRADE_LEVEL then 1 else 0
          acc + houses * houseCost + landmarks * hotelCost) 0
    let result := payAmount players ps player.id none total nextLogs
    { players := result.players, propertyState := result.propertyState,
      logs := result.logs, followUpPosition := none, movementPath := [] }
  | CardEffect.getOutOfJail =>
    { players := players.set currentIndex { player with hasGetOutOfJail := true },
      propertyState := ps,
      logs := addLog nextLogs (player.name ++ " received a release permit."),
      followUpPosition := none, movementPath := [] }
  | CardEffect.goToJail =>
    { players := players.set currentIndex (sendPlayerToJail B player),
      propertyState := ps,
      logs := addLog nextLogs (player.name ++ " was redirected to city hall."),
      followUpPosition := none, movementPath := [] }
  | CardEffect.luckCheck success failure =>
    if luckA == luckB then
      { players := players.set currentIndex { player with funds := player.funds + success },
        propertyState := ps,
        logs := addLog nextLogs (player.name ++ " rolled doubles and gained a reward."),
        followUpPosition := none, movementPath := [] }
    else
      let result := payAmount players ps player.id none failure nextLogs
      { players := result.players, propertyState := result.propertyState,
        logs := result.logs, followUpPosition := none, movementPath := [] }

structure MoveOutcome where
  players : List Player
  logs : List String
  movementPath : List Nat
  passedStart : Bool
  deriving Repr, BEq, DecidableEq

/-- The dice-driven movement step of doRollInternal (game.ts lines
1277-1288): advance by the dice total mod the board length, credit the
pass-start bonus when the move wraps, and record the movement trail. -/
def moveStep (B : Board) (players : List Player) (currentIndex : Nat)
    (diceTotal : Nat) (logs : List String) : MoveOutcome :=
  let activePlayer := players.getD currentIndex default
  let previous := activePlayer.position
  let nextPosition := normalizePosition B ((previous : Int) + (diceTotal : Int))
  let moved := applyPassStartBonus activePlayer previous nextPosition (decide (0 < diceTotal))
  let movementPath := computeMovementPath B previous (diceTotal : Int)
  let logs1 :=
    if moved.snd then addLog logs (activePlayer.name ++ " collected the start bonus.")
    else logs
  let player2 := { moved.fst with position := nextPosition }
  { players := players.set currentIndex player2, logs := logs1,
    movementPath := movementPath, passedStart := moved.snd }

/-- The local variables of doRollInternal that the landing dispatch block
reads and updates. -/
structure LandingLocals where
  players : List Player
  propertyState : PropMap
  logs : List String
  movementPath : List Nat
  currentIndex : Nat
  pendingAction : Option PendingAction
  pendingNextTurnIndex : Option Nat
  stayOnCurrentPlayer : Bool
  consecutiveDoubles : Nat
  lastCard : Option CardSnapshot
  chanceIndex : Nat
  chestIndex : Nat
  deriving Repr, BEq, DecidableEq

/-- The early-return state shape shared by the three-doubles return, the
jail-bankruptcy return, the cannot-move return and the rent/tax
bankruptcy returns of doRollInternal.  Fields absent from those partial
returns (phase, deck cursors, trade, auction) keep their prior values. -/
def rollEarlyReturn (state : GameState) (players : List Player) (ps : PropMap)
    (logs : List String) (dieA dieB : Nat) (nextIndex : Nat) : GameState :=
  { state with
    players := players
    propertyState := ps
    logs := logs
    lastRoll := (dieA, dieB)
    currentTurnIndex := nextIndex
    consecutiveDoubles := 0
    pendingAction := none
    pendingNextTurnIndex := none
    lastCard := none
    lastMovementPath := []
    winnerId := computeWinnerId players }

/-- Shared removed-index bookkeeping of the rent and tax branches: a
removal before the current index shifts it down, a removal of the acting
player ends the roll immediately. -/
def applyPaymentRemoval (state : GameState) (dieA dieB : Nat)
    (L : LandingLocals) (payment : PaymentOutcome) : Except GameState LandingLocals :=
  let L1 := { L with
    players := payment.players
    propertyState := payment.propertyState
    logs := payment.logs }
  match payment.removedIndex with
  | none => Except.ok L1
  | some removed =>
    if removed < L.currentIndex then
      Except.ok { L1 with currentIndex := L.currentIndex - 1 }
    else if removed == L.currentIndex then
      let nextIndex :=
        if payment.players.length > 0 then L.currentIndex % payment.players.length else 0
      Except.error (rollEarlyReturn state payment.players payment.propertyState
        payment.logs dieA dieB nextIndex)
    else
      Except.ok L1

/-- The landed-tile dispatch of doRollInternal (game.ts lines 1289-1425).
Except.error carries a completed early-return state; Except.ok carries
the updated locals that flow into the common tail. -/
def resolveLanding (B : Board) (state : GameState) (dieA dieB luckA luckB : Nat)
    (L : LandingLocals) : Except GameState LandingLocals :=
  let diceTotal := dieA + dieB
  let activePlayer := L.players.getD L.currentIndex default
  let tile := getActiveTile B activePlayer
  if isPurchasable tile.type then
    match lookupProp L.propertyState tile.id with
    | none => Except.ok L
    | some tileState =>
      match tileState.ownerId with
      | none =>
        Except.ok { L with
          pendingAction := some (PendingAction.purchase tile.id activePlayer.id
            (tile.price.getD 0))
          pendingNextTurnIndex := some (if L.stayOnCurrentPlayer then L.currentIndex
            else (L.currentIndex + 1) % L.players.length)
          logs := addLog L.logs (tile.name ++ " is available for purchase.") }
      | some ownerId =>
        if ownerId == activePlayer.id then Except.ok L
        else if tileState.mortgaged then
          Except.ok { L with
            logs := addLog L.logs (tile.name ++ " is mortgaged. No rent due.") }
        else
          let rent := calculateRent B tile diceTotal L.propertyState ownerId
          let logs1 := match L.players.find? (fun p => p.id == ownerId) with
            | some owner =>
              addLog L.logs (activePlayer.name ++ " owes rent to " ++ owner.name ++ ".")
            | none => L.logs
          let payment := payAmount L.players L.propertyState activePlayer.id
            (some ownerId) rent logs1
          applyPaymentRemoval state dieA dieB { L with logs := logs1 } payment
  else
    match tile.type with
    | TileType.tax =>
      let fee := tile.price.getD 100
      let logs1 := addLog L.logs (activePlayer.name ++ " paid zoning fees.")
      let payment := payAmount L.players L.propertyState activePlayer.id none fee logs1
      applyPaymentRemoval state dieA dieB { L with logs := logs1 } payment
    | TileType.chance =>
      let card := B.chanceCards.getD (L.chanceIndex % B.chanceCards.length) default
      let chanceIndex1 := (L.chanceIndex + 1) % B.chanceCards.length
      let result := handleChanceOrChest B card L.currentIndex L.players
        L.propertyState L.logs luckA luckB
      let players1 := match result.followUpPosition with
        | some p => result.players.set L.currentIndex
            { result.players.getD L.currentIndex default with position := p }
        | none => result.players
      Except.ok { L with
        players := players1
        propertyState := result.propertyState
        logs := result.logs
        chanceIndex := chanceIndex1
        lastCard := some { type := "chance", title := card.title,
                           description := card.description }
        movementPath := if result.movementPath.length > 0 then
            L.movementPath ++ result.movementPath
          else L.movementPath }
    | TileType.chest =>
      let card := B.chestCards.getD (L.chestIndex % B.chestCards.length) default
      let chestIndex1 := (L.chestIndex + 1) % B.chestCards.length
      let result := handleChanceOrChest B card L.currentIndex L.players
        L.propertyState L.logs luckA luckB
      let players1 := match result.followUpPosition with
        | some p => result.players.set L.currentIndex
            { result.players.getD L.currentIndex default with position := p }
        | none => result.players
      Except.ok { L with
        players := players1
        propertyState := result.propertyState
        logs := result.logs
        chestIndex := chestIndex1
        lastCard := some { type := "chest", title := card.title,
                           description := card.description }
        movementPath := if result.movementPath.length > 0 then
            L.movementPath ++ result.movementPath
          else L.movementPath }
    | TileType.gotojail =>
      let jailPath := computeForwardPath B activePlayer.position (jailIndex B)
      Except.ok { L with
        players := L.players.set L.currentIndex (sendPlayerToJail B activePlayer)
        logs := addLog L.logs (activePlayer.name ++ " was redirected to city hall.")
        stayOnCurrentPlayer := false
        consecutiveDoubles := 0
        movementPath := L.movementPath ++ jailPath }
    | _ => Except.ok L

/-- The common tail of doRollInternal (game.ts lines 1427-1479). -/
def finishRoll (state : GameState) (dieA dieB : Nat) (L : LandingLocals) : GameState :=
  let remainingPlayers := L.players.length
  let nextIndex :=
    if L.stayOnCurrentPlayer && decide (remainingPlayers > 0) then
      L.currentIndex % remainingPlayers
    else if remainingPlayers > 0 then (L.currentIndex + 1) % remainingPlayers
    else 0
  match L.pendingAction with
  | some pa =>
    { state with
      players := L.players
      propertyState := L.propertyState
      logs := L.logs
      pendingAction := some pa
      pendingNextTurnIndex := L.pendingNextTurnIndex
      lastRoll := (dieA, dieB)
      consecutiveDoubles := L.consecutiveDoubles
      lastMovementPath := collapseConsecutiveDuplicates L.movementPath
      lastCard := L.lastCard
      chanceIndex := L.chanceIndex
      chestIndex := L.chestIndex
      winnerId := computeWinnerId L.players }
  | none =>
    let consecutiveDoubles := if L.stayOnCurrentPlayer then L.consecutiveDoubles else 0
    let nextPhase := if L.players.length ≤ 1 then GamePhase.summary else state.phase
    { state with
      players := L.players
      propertyState := L.propertyState
      logs := L.logs
      pendingAction := none
      pendingNextTurnIndex := none
      lastRoll := (dieA, dieB)
      consecutiveDoubles := consecutiveDoubles
      currentTurnIndex := nextIndex
      lastCard := L.lastCard
      chanceIndex := L.chanceIndex
      chestIndex := L.chestIndex
      phase := nextPhase
      lastMovementPath := collapseConsecutiveDuplicates L.movementPath
      winnerId := computeWinnerId L.players }

/-- The three-doubles branch of doRollInternal (game.ts lines 1208-1228). -/
def tripleDoublesReturn (B : Board) (state : GameState) (dieA dieB : Nat)
    (currentIndex : Nat) (logs : List String) : GameState :=
  let activePlayer := state.players.getD currentIndex default
  let players1 := state.players.set currentIndex (sendPlayerToJail B activePlayer)
  let logs1 := addLog logs (activePlayer.name ++
    " rolled three doubles in a row and was audited.")
  let nextIndex :=
    if players1.length > 0 then (currentIndex + 1) % players1.length else 0
  rollEarlyReturn state players1 state.propertyState logs1 dieA dieB nextIndex

/-- The post-jail part of doRollInternal (game.ts lines 1230-1479):
removed-index bookkeeping, the cannot-move return, the movement step,
the landing dispatch and the common tail. -/
def rollAfterJail (B : Board) (state : GameState) (dieA dieB luckA luckB : Nat)
    (currentIndex consecutiveDoubles : Nat) (stayOnCurrentPlayer : Bool)
    (jr : JailOutcome) : GameState :=
  let removedHitsCurrent := match jr.removedIndex with
    | some ri => ri == currentIndex
    | none => false
  if removedHitsCurrent then
    let nextIndex :=
      if jr.players.length > 0 then currentIndex % jr.players.length else 0
    rollEarlyReturn state jr.players jr.propertyState jr.logs dieA dieB nextIndex
  else
    let currentIndex1 := match jr.removedIndex with
      | some ri => if ri < currentIndex then currentIndex - 1 else currentIndex
      | none => currentIndex
    if !jr.canMove then
      let nextIndex :=
        if jr.players.length > 0 then (currentIndex1 + 1) % jr.players.length else 0
      rollEarlyReturn state jr.players jr.propertyState jr.logs dieA dieB nextIndex
    else
      let moved := moveStep B jr.players currentIndex1 (dieA + dieB) jr.logs
      let L : LandingLocals :=
        { players := moved.players, propertyState := jr.propertyState,
          logs := moved.logs, movementPath := moved.movementPath,
          currentIndex := currentIndex1, pendingAction := none,
          pendingNextTurnIndex := none,
          stayOnCurrentPlayer := stayOnCurrentPlayer,
          consecutiveDoubles := consecutiveDoubles, lastCard := none,
          chanceIndex := state.chanceIndex, chestIndex := state.chestIndex }
      match resolveLanding B state dieA dieB luckA luckB L with
      | Except.error finished => finished
      | Except.ok L1 => finishRoll state dieA dieB L1

/-- doRollInternal (game.ts lines 1183-1479), with the dice of the roll
and the fresh dice of a potential luck-check card passed in explicitly.
The DEV-only debug logging of the source is omitted (production build). -/
def doRollInternal (B : Board) (state : GameState) (dieA dieB luckA luckB : Nat) :
    GameState :=
  let players := state.players
  let currentIndex :=
    if state.currentTurnIndex ≥ players.length then 0 else state.currentTurnIndex
  let activePlayer := players.getD currentIndex default
  let consecutiveDoubles := if dieA == dieB then state.consecutiveDoubles + 1 else 0
  let stayOnCurrentPlayer := dieA == dieB
  let logs := addLog state.logs (activePlayer.name ++ " rolled the dice.")
  if dieA == dieB && decide (consecutiveDoubles ≥ 3) then
    tripleDoublesReturn B state dieA dieB currentIndex logs
  else
    rollAfterJail B state dieA dieB luckA luckB currentIndex consecutiveDoubles
      stayOnCurrentPlayer
      (resolveJailState currentIndex dieA dieB players state.propertyState logs)

/-- rollDiceAndResolve (game.ts lines 638-648): the roll command with its
guard; the randomly drawn dice are inputs here. -/
def rollDiceAndResolve (B : Board) (state : GameState) (dieA dieB luckA luckB : Nat) :
    GameState :=
  if state.phase != GamePhase.rolling || state.players.length == 0 ||
      state.pendingAction.isSome then
    state
  else doRollInternal B state dieA dieB luckA luckB

/-- confirmPurchase (game.ts lines 658-734). -/
def confirmPurchase (B : Board) (state : GameState) : GameState :=
  match state.pendingAction with
  | some (PendingAction.purchase tileId playerId price) =>
    (match B.tiles.find? (fun item => item.id == tileId) with
    | none => { state with pendingAction := none, pendingNextTurnIndex := none }
    | some tile =>
      let players := state.players
      let logs := state.logs
      match players.findIdx? (fun player => player.id == playerId) with
      | none => { state with pendingAction := none, pendingNextTurnIndex := none }
      | some buyerIndex =>
        let buyer := players.getD buyerIndex default
        if buyer.funds < price then
          let nextLogs := addLog logs (buyer.name ++ " cannot afford the purchase.")
          let nextIndex := state.pendingNextTurnIndex.getD
            ((state.currentTurnIndex + 1) % players.length)
          { state with
            logs := nextLogs
            pendingAction := none
            pendingNextTurnIndex := none
            currentTurnIndex := nextIndex
            consecutiveDoubles := if nextIndex == state.currentTurnIndex then
                state.consecutiveDoubles
              else 0 }
        else
          let players1 := players.set buyerIndex { buyer with funds := buyer.funds - price }
          let propertyState1 := updateProp state.propertyState tile.id
            (fun meta => { meta with ownerId := some buyer.id })
          let nextLogs := addLog logs (buyer.name ++ " purchased the property.")
          let nextIndex := state.pendingNextTurnIndex.getD
            ((state.currentTurnIndex + 1) % players1.length)
          { state with
            players := players1
            propertyState := propertyState1
            logs := nextLogs
            pendingAction := none
            pendingNextTurnIndex := none
            currentTurnIndex := nextIndex
            consecutiveDoubles := if nextIndex == state.currentTurnIndex then
                state.consecutiveDoubles
              else 0 })
  | _ => state

/-- declinePurchase (game.ts lines 735-753). -/
def declinePurchase (state : GameState) : GameState :=
  match state.pendingAction with
  | some (PendingAction.purchase _ _ _) =>
    let nextIndex := state.pendingNextTurnIndex.getD
      ((state.currentTurnIndex + 1) % max state.players.length 1)
    { state with
      pendingAction := none
      pendingNextTurnIndex := none
      currentTurnIndex := nextIndex
      consecutiveDoubles := if nextIndex == state.currentTurnIndex then
          state.consecutiveDoubles
        else 0
      logs := addLog state.logs "Purchase declined." }
  | _ => state

/-- requestUpgrade (game.ts lines 754-783). -/
def requestUpgrade (B : Board) (state : GameState) (tileId : String) : GameState :=
  if state.pendingAction.isSome then state
  else
    match state.players.get? state.currentTurnIndex with
    | none => state
    | some activePlayer =>
      match B.tiles.find? (fun item => item.id == tileId) with
      | none => state
      | some tile =>
        if tile.type != TileType.property || tile.group == none then state
        else
          match lookupProp state.propertyState tileId with
          | none => state
          | some propertyMeta =>
            if propertyMeta.ownerId != some activePlayer.id then state
            else if propertyMeta.mortgaged then state
            else if !ownsFullSet B activePlayer.id tile state.propertyState then state
            else if propertyMeta.houses ≥ MAX_UPGRADE_LEVEL then state
            else
              let nextLevel := propertyMeta.houses + 1
              let cost := determineUpgradeCost tile nextLevel
              if cost ≤ 0 then state
              else
                { state with
                  pendingAction := some (PendingAction.upgrade tileId
                    activePlayer.id cost nextLevel)
                  pendingNextTurnIndex := some state.currentTurnIndex }

/-- confirmUpgrade (game.ts lines 784-848). -/
def confirmUpgrade (B : Board) (state : GameState) : GameState :=
  match state.pendingAction with
  | some (PendingAction.upgrade tileId playerId price nextLevel) =>
    (match B.tiles.find? (fun item => item.id == tileId) with
    | none => { state with pendingAction := none, pendingNextTurnIndex := none }
    | some tile =>
      let players := state.players
      match lookupProp state.propertyState tile.id with
      | none => state
      | some _ =>
        match players.findIdx? (fun player => player.id == playerId) with
        | none => { state with pendingAction := none, pendingNextTurnIndex := none }
        | some playerIndex =>
          let upgrader := players.getD playerIndex default
          if upgrader.funds < price then
            { state with
              logs := addLog state.logs (upgrader.name ++ " cannot afford the upgrade.")
              pendingAction := none
              pendingNextTurnIndex := none }
          else
            let players1 := players.set playerIndex
              { upgrader with funds := upgrader.funds - price }
            let propertyState1 := updateProp state.propertyState tile.id
              (fun meta => { meta with houses := nextLevel })
            { state with
              players := players1
              propertyState := propertyState1
              logs := addLog state.logs (upgrader.name ++ " upgraded the property.")
              pendingAction := none
              pendingNextTurnIndex := none })
  | _ => state

/-- declineUpgrade (game.ts lines 849-854): clears any pending action. -/
def declineUpgrade (state : GameState) : GameState :=
  { state with pendingAction := none, pendingNextTurnIndex := none }

/-- mortgageProperty (game.ts lines 855-887). -/
def mortgageProperty (B : Board) (state : GameState) (tileId : String) : GameState :=
  match B.tiles.find? (fun item => item.id == tileId) with
  | none => state
  | some tile =>
    match state.players.get? state.currentTurnIndex with
    | none => state
    | some activePlayer =>
      match lookupProp state.propertyState tileId with
      | none => state
      | some propertyMeta =>
        if propertyMeta.ownerId != some activePlayer.id then state
        else if propertyMeta.mortgaged || decide (propertyMeta.houses > 0) then state
        else
          let value := getMortgageValue tile
          if value ≤ 0 then state
          else
            let players1 := state.players.mapIdx (fun idx player =>
              if idx == state.currentTurnIndex then
                { player with funds := player.funds + value }
              else player)
            let propertyState1 := updateProp state.propertyState tileId
              (fun meta => { meta with mortgaged := true })
            { state with
              players := players1
              propertyState := propertyState1
              logs := addLog state.logs (activePlayer.name ++ " mortgaged a property.") }

/-- redeemProperty (game.ts lines 888-919).  Math.ceil(value * 1.1) is
modelled as the exact rational ceiling; binary floating point can differ
from it by one on some inputs, but no claim depends on the exact fee. -/
def redeemProperty (B : Board) (state : GameState) (tileId : String) : GameState :=
  match B.tiles.find? (fun item => item.id == tileId) with
  | none => state
  | some tile =>
    match state.players.get? state.currentTurnIndex with
    | none => state
    | some activePlayer =>
      match lookupProp state.propertyState tileId with
      | none => state
      | some propertyMeta =>
        if propertyMeta.ownerId != some activePlayer.id || !propertyMeta.mortgaged then
          state
        else
          let cost := ceilDiv (getMortgageValue tile * 11) 10
          if activePlayer.funds < cost then state
          else
            let players1 := state.players.mapIdx (fun idx player =>
              if idx == state.currentTurnIndex then
                { player with funds := player.funds - cost }
              else player)
            let propertyState1 := updateProp state.propertyState tileId
              (fun meta => { meta with mortgaged := false })
            { state with
              players := players1
              propertyState := propertyState1
              logs := addLog state.logs (activePlayer.name ++ " redeemed a property.") }

/-- claimPledgeFrom (game.ts lines 921-953): transfer one property from
another player to the active player as a pledge, with no payment. -/
def claimPledgeFrom (B : Board) (state : GameState) (fromPlayerId tileId : String) :
    GameState :=
  match state.players.get? state.currentTurnIndex with
  | none => state
  | some activePlayer =>
    if activePlayer.id == fromPlayerId then state
    else
      match B.tiles.find? (fun t => t.id == tileId) with
      | none => state
      | some _ =>
        match lookupProp state.propertyState tileId with
        | none => state
        | some meta =>
          if meta.ownerId != some fromPlayerId then state
          else
            let propertyState1 := updateProp state.propertyState tileId
              (fun m => { m with ownerId := some activePlayer.id })
            { state with
              propertyState := propertyState1
              logs := addLog state.logs (activePlayer.name ++
                " received a pledged property.") }

/-- sendTradeProposal (game.ts lines 954-1004), returning the new state
and the boolean result.  The generated trade id is a fixed placeholder
for the random id of the source; it is never inspected. -/
def sendTradeProposal (state : GameState) (payload : TradePayload) :
    GameState × Bool :=
  if state.pendingTrade.isSome then (state, false)
  else
    match state.players.find? (fun player => player.id == payload.fromId),
          state.players.find? (fun player => player.id == payload.toId) with
    | some fromPlayer, some toPlayer =>
      if fromPlayer.id == toPlayer.id then (state, false)
      else
        let giveCash := max 0 payload.giveCash
        let receiveCash := max 0 payload.receiveCash
        let giveTiles := (uniqueArray payload.giveTiles).filter (fun tileId =>
          ((lookupProp state.propertyState tileId).bind (fun m => m.ownerId)) ==
            some fromPlayer.id)
        let receiveTiles := (uniqueArray payload.receiveTiles).filter (fun tileId =>
          ((lookupProp state.propertyState tileId).bind (fun m => m.ownerId)) ==
            some toPlayer.id)
        if giveCash == 0 && receiveCash == 0 && giveTiles.isEmpty &&
            receiveTiles.isEmpty then
          (state, false)
        else if fromPlayer.funds < giveCash || toPlayer.funds < receiveCash then
          (state, false)
        else
          let trade : TradeProposal :=
            { id := "trade-1", fromId := fromPlayer.id, toId := toPlayer.id,
              giveCash := giveCash, receiveCash := receiveCash,
              giveTiles := giveTiles, receiveTiles := receiveTiles }
          ({ state with
              pendingTrade := some trade
              logs := addLog state.logs (fromPlayer.name ++
                " proposed a trade to " ++ toPlayer.name ++ ".") }, true)
    | _, _ => (state, false)

def validateTiles (ps : PropMap) (ids : List String) (ownerId : String) : Bool :=
  ids.all (fun tileId =>
    ((lookupProp ps tileId).bind (fun m => m.ownerId)) == some ownerId)

/-- The moveTile closure of acceptTradeProposal: reassign the tile if it
is still owned by the source party at move time. -/
def moveTile (ps : PropMap) (tileId sourceId targetId : String) : PropMap :=
  ps.map (fun e =>
    if e.fst == tileId && e.snd.ownerId == some sourceId then
      (e.fst, { e.snd with ownerId := some targetId })
    else e)

/-- acceptTradeProposal (game.ts lines 1005-1073). -/
def acceptTradeProposal (state : GameState) : GameState × Bool :=
  match state.pendingTrade with
  | none => (state, false)
  | some trade =>
    let players := state.players
    match players.findIdx? (fun player => player.id == trade.fromId),
          players.findIdx? (fun player => player.id == trade.toId) with
    | some fromIndex, some toIndex =>
      let fromPlayer := players.getD fromIndex default
      let toPlayer := players.getD toIndex default
      if fromPlayer.funds < trade.giveCash || toPlayer.funds < trade.receiveCash then
        ({ state with
            pendingTrade := none
            logs := addLog state.logs ("Trade between " ++ fromPlayer.name ++
              " and " ++ toPlayer.name ++ " failed due to insufficient funds.") },
         false)
      else if !validateTiles state.propertyState trade.giveTiles fromPlayer.id ||
          !validateTiles state.propertyState trade.receiveTiles toPlayer.id then
        ({ state with
            pendingTrade := none
            logs := addLog state.logs ("Trade between " ++ fromPlayer.name ++
              " and " ++ toPlayer.name ++ " failed because ownership changed.") },
         false)
      else
        let players1 := players.set fromIndex
          { fromPlayer with
            funds := fromPlayer.funds - trade.giveCash + trade.receiveCash }
        let toPlayer1 := players1.getD toIndex default
        let players2 := players1.set toIndex
          { toPlayer1 with
            funds := toPlayer1.funds + trade.giveCash - trade.receiveCash }
        let ps1 := trade.giveTiles.foldl
          (fun acc tileId => moveTile acc tileId fromPlayer.id toPlayer.id)
          state.propertyState
        let ps2 := trade.receiveTiles.foldl
          (fun acc tileId => moveTile acc tileId toPlayer.id fromPlayer.id) ps1
        ({ state with
            players := players2
            propertyState := ps2
            pendingTrade := none
            logs := addLog state.logs (fromPlayer.name ++ " and " ++
              toPlayer.name ++ " completed a trade.") }, true)
    | _, _ => ({ state with pendingTrade := none }, false)

/-- rejectTradeProposal (game.ts lines 1074-1099). -/
def rejectTradeProposal (state : GameState) (initiatorId : Option String) :
    GameState × Bool :=
  match state.pendingTrade with
  | none => (state, false)
  | some trade =>
    let initiator := initiatorId.bind (fun iid =>
      state.players.find? (fun player => player.id == iid))
    let fromPlayer := state.players.find? (fun player => player.id == trade.fromId)
    let toPlayer := state.players.find? (fun player => player.id == trade.toId)
    let actor := match initiator with
      | some a => some a
      | none => match toPlayer with
        | some t => some t
        | none => fromPlayer
    let actorName := match actor with
      | some a => a.name
      | none => "Player"
    let message :=
      if (actor.map (fun a => a.id)) == some trade.fromId then
        actorName ++ " withdrew the trade offer."
      else
        actorName ++ " declined the offer."
    ({ state with pendingTrade := none, logs := addLog state.logs message }, true)

/-- leaveJailByPayment (game.ts lines 1102-1143). -/
def leaveJailByPayment (state : GameState) (playerId : String) : GameState :=
  let players := state.players
  let ps := state.propertyState
  match players.findIdx? (fun p => p.id == playerId) with
  | none => state
  | some playerIndex =>
    let player := players.getD playerIndex default
    if !player.inJail then state
    else
      let result := payAmount players ps player.id none 200 state.logs
      if result.bankruptPlayerId == some player.id then
        let nextIndex :=
          if result.players.length > 0 then
            state.currentTurnIndex % result.players.length
          else 0
        { state with
          players := result.players
          propertyState := result.propertyState
          logs := result.logs
          currentTurnIndex := nextIndex }
      else
        let players2 := updateFirstById result.players player.id
          (fun holder => { holder with inJail := false, jailTurns := 0 })
        { state with
          players := players2
          propertyState := result.propertyState
          logs := addLog result.logs (player.name ++ " paid to exit city hall.") }

/-- useJailCard (game.ts lines 1144-1159). -/
def useJailCard (state : GameState) (playerId : String) : GameState :=
  match state.players.findIdx? (fun p => p.id == playerId) with
  | none => state
  | some idx =>
    let player := state.players.getD idx default
    if !player.inJail then state
    else if !player.hasGetOutOfJail then state
    else
      let players1 := state.players.set idx
        { player with hasGetOutOfJail := false, inJail := false, jailTurns := 0 }
      { state with
        players := players1
        logs := addLog state.logs (player.name ++
          " used a release permit to exit city hall.") }

/-- dismissCard (game.ts line 1160). -/
def dismissCard (state : GameState) : GameState := { state with lastCard := none }

/-- updatePhase (game.ts line 612). -/
def updatePhase (state : GameState) (phase : GamePhase) : GameState :=
  { state with phase := phase }

/-- setPlayerCount (game.ts line 637). -/
def setPlayerCount (state : GameState) (count : Nat) : GameState :=
  { state with playerCount := count }

/-- addPlayer (game.ts lines 596-611). -/
def addPlayer (B : Board) (state : GameState) (seed : PlayerSeed) : GameState :=
  { state with
    players := state.players ++
      [{ id := seed.id, name := seed.name, color := seed.color,
         tokenId := seed.tokenId, funds := START_FUNDS,
         position := startIndex B, inJail := false, jailTurns := 0,
         hasGetOutOfJail := false }]
    playerCount := state.players.length + 1 }

/-- setPlayers (game.ts lines 613-636). -/
def setPlayers (B : Board) (state : GameState) (seeds : List PlayerSeed) : GameState :=
  { state with
    players := seeds.map (fun seed =>
      { id := seed.id, name := seed.name, color := seed.color,
        tokenId := seed.tokenId, funds := START_FUNDS,
        position := startIndex B, inJail := false, jailTurns := 0,
        hasGetOutOfJail := false })
    phase := GamePhase.rolling
    currentTurnIndex := 0
    consecutiveDoubles := 0
    playerCount := seeds.length
    propertyState := createPropertyState B
    pendingAction := none
    pendingNextTurnIndex := none
    logs := []
    lastCard := none
    lastRoll := (1, 1)
    chanceIndex := 0
    chestIndex := 0 }

/-- A parking filler tile for the specimen board. -/
def parkTile (i : Nat) : TileDefinition :=
  { id := "", type := TileType.parking, name := "Park " ++ toString i }

/-- Modelled from the spec: a specimen 40-tile board satisfying the Board
Catalog contract (ordered tile sequence of fixed length 40 with a start
tile, ownable tiles carrying price/rent-schedule/group data, and a
just-visiting tile), used only to instantiate concrete test scenarios;
the real catalog (data/board.ts) is outside the specified core. -/
def demoTiles : List TileDefinition :=
  [ { id := "start", type := TileType.start, name := "Start" },
    { id := "p1", type := TileType.property, name := "P1", price := some 60,
      rent := some 2, rentLevels := [10, 30, 90, 160, 250], houseCost := some 50,
      group := some "g1" },
    { id := "p2", type := TileType.property, name := "P2", price := some 60,
      rent := some 4, rentLevels := [20, 60, 180, 320, 450], houseCost := some 50,
      group := some "g1" },
    { id := "tax1", type := TileType.tax, name := "Tax", price := some 200 },
    { id := "r1", type := TileType.railway, name := "R1", price := some 200,
      group := some "railway" },
    { id := "r2", type := TileType.railway, name := "R2", price := some 200,
      group := some "railway" },
    { id := "u1", type := TileType.utility, name := "U1", price := some 150,
      group := some "utility" },
    { id := "u2", type := TileType.utility, name := "U2", price := some 150,
      group := some "utility" },
    parkTile 8, parkTile 9,
    { id := "just-visiting", type := TileType.jail, name := "Just Visiting" } ]
  ++ (List.range 19).map (fun i => parkTile (11 + i))
  ++ [ { id := "gotojail", type := TileType.gotojail, name := "Go To Jail" } ]
  ++ (List.range 9).map (fun i => parkTile (31 + i))

def demoBoard : Board := { tiles := demoTiles, chanceCards := [], chestCards := [] }

/-- A concrete player for test scenarios. -/
def mkPlayer (pid nm : String) (f : Int) (pos : Nat) : Player :=
  { id := pid, name := nm, color := "c", funds := f, position := pos,
    tokenId := "t", inJail := false, jailTurns := 0, hasGetOutOfJail := false }

/-- A concrete game state over the given players and property map, in the
rolling phase with nothing pending. -/
def mkState (players : List Player) (ps : PropMap) : GameState :=
  { players := players, phase := GamePhase.rolling, playerCount := players.length,
    currentTurnIndex := 0, lastRoll := (1, 1), consecutiveDoubles := 0,
    propertyState := ps, pendingAction := none, pendingNextTurnIndex := none,
    chanceIndex := 0, chestIndex := 0, lastCard := none, logs := [],
    pendingTrade := none, auction := none, lastMovementPath := [],
    winnerId := none }

/-- The active-owner half of the ownership exclusivity invariant: every
recorded owner id belongs to a player in the current player list. -/
def ownersActive (players : List Player) (ps : PropMap) : Prop :=
  ∀ e ∈ ps, ∀ oid, e.snd.ownerId = some oid → ∃ p, p ∈ players ∧ p.id = oid

/-- Invariant statement for the two possible results of the landing
dispatch. -/
def landingOutcomeInv (r : Except GameState LandingLocals) : Prop :=
  match r with
  | Except.error g => ownersActive g.players g.propertyState
  | Except.ok L => ownersActive L.players L.propertyState

/-- Concrete ledger scenario: Alice holds 20 and two tiles, Bob holds 0. -/
def c1Players : List Player := [mkPlayer "a" "Alice" 20 0, mkPlayer "b" "Bob" 0 0]

def c1Props : PropMap :=
  [("p1", { ownerId := some "a", houses := 0, mortgaged := false }),
   ("p2", { ownerId := some "a", houses := 2, mortgaged := true })]

/-- A player sitting in city hall on their third turn with ample funds. -/
def jailedAlice : Player :=
  { mkPlayer "a" "Alice" 1000 10 with inJail := true, jailTurns := 2 }

/-- A jailed player who cannot afford the exit fee. -/
def brokeAlice : Player :=
  { mkPlayer "a" "Alice" 0 10 with inJail := true, jailTurns := 0 }

def c3State : GameState :=
  mkState [jailedAlice, mkPlayer "b" "Bob" 1500 0] (createPropertyState demoBoard)

def c9State : GameState :=
  mkState [brokeAlice, mkPlayer "b" "Bob" 1500 0] (createPropertyState demoBoard)

/-- Bob owns the P2 tile; Alice cannot cover its rent. -/
def c9bProps : PropMap :=
  updateProp (createPropertyState demoBoard) "p2"
    (fun m => { m with ownerId := some "b" })

def c9bState : GameState :=
  mkState [mkPlayer "a" "Alice" 3 0, mkPlayer "b" "Bob" 1500 5] c9bProps

def c5State : GameState :=
  mkState [mkPlayer "a" "Alice" 1500 38, mkPlayer "b" "Bob" 1500 0]
    (createPropertyState demoBoard)

/-- Bob owns the P1 tile; used for the trade-proposal scenarios. -/
def c8Props : PropMap :=
  updateProp (createPropertyState demoBoard) "p1"
    (fun m => { m with ownerId := some "b" })

def c8State : GameState :=
  mkState [mkPlayer "a" "Alice" 1500 0, mkPlayer "b" "Bob" 1500 0] c8Props

/-- A proposal listing a give-tile (p2) that the sender does not own. -/
def c8Payload : TradePayload :=
  { fromId := "a", toId := "b", giveCash := 0, receiveCash := 0,
    giveTiles := ["p2"], receiveTiles := ["p1"] }

/-- A pending trade offering 100 cash for Bob's P1 tile. -/
def c7Trade : TradeProposal :=
  { id := "trade-1", fromId := "a", toId := "b", giveCash := 100,
    receiveCash := 0, giveTiles := [], receiveTiles := ["p1"] }

def c7State : GameState :=
  { mkState [mkPlayer "a" "Alice" 1500 0, mkPlayer "b" "Bob" 1500 0] c8Props with
    pendingTrade := some c7Trade }

/-- The same pending trade after Alice's funds have drifted below the
offered cash. -/
def c7PoorState : GameState :=
  { mkState [mkPlayer "a" "Alice" 50 0, mkPlayer "b" "Bob" 1500 0] c8Props with
    pendingTrade := some c7Trade }

/-- State with a pending purchase, used for the roll-guard scenario. -/
def c6State : GameState :=
  { mkState [mkPlayer "a" "Alice" 1500 1, mkPlayer "b" "Bob" 1500 0]
      (createPropertyState demoBoard) with
    pendingAction := some (PendingAction.purchase "p1" "a" 60) }

/-- Alice is active while Bob owns the P1 tile, for the pledge scenario. -/
def c10State : GameState :=
  mkState [mkPlayer "a" "Alice" 1500 0, mkPlayer "b" "Bob" 1500 0] c8Props

/-- A property map for the railway rent witness: one railway owned. -/
def c4Props : PropMap :=
  [("r1", { ownerId := some "b", houses := 0, mortgaged := false })]

/-- Landing locals with a single surviving player and nothing pending. -/
def c9L : LandingLocals :=
  { players := [mkPlayer "b" "Bob" 1500 0], propertyState := [], logs := [],
    movementPath := [], currentIndex := 0, pendingAction := none,
    pendingNextTurnIndex := none, stayOnCurrentPlayer := false,
    consecutiveDoubles := 0, lastCard := none, chanceIndex := 0, chestIndex := 0 }

/-- A state transformer keeps every recorded owner pointing at a player
still in the list. -/
def preservesOwners (f : GameState → GameState) : Prop :=
  ∀ state, ownersActive state.players state.propertyState →
    ownersActive (f state).players (f state).propertyState

/-- reset (game.ts lines 1161-1180). -/
def reset (B : Board) (state : GameState) : GameState :=
  { state with
    players := []
    phase := GamePhase.lobby
    playerCount := 2
    currentTurnIndex := 0
    lastRoll := (1, 1)
    consecutiveDoubles := 0
    propertyState := createPropertyState B
    pendingAction := none
    pendingNextTurnIndex := none
    chanceIndex := 0
    chestIndex := 0
    lastCard := none
    logs := []
    pendingTrade := none
    auction := none
    lastMovementPath := []
    winnerId := none }


lemma findIdx?_cons_eq (p : Player → Bool) (x : Player) (xs : List Player) :
    (x :: xs).findIdx? p = if p x then some 0 else (xs.findIdx? p).map (· + 1) := by
  rw [List.findIdx?_cons]
  split
  case isTrue => rfl
  case isFalse => rw [List.findIdx?_succ]

lemma findIdx?_some_lt {p : Player → Bool} {l : List Player} {i : Nat}
    (h : l.findIdx? p = some i) : i < l.length := by
  induction l generalizing i with
  | nil => simp [List.findIdx?] at h
  | cons x xs ih =>
    rw [findIdx?_cons_eq] at h
    by_cases hx : p x
    · simp [hx] at h
      simp [← h]
    · simp [hx] at h
      obtain ⟨j, hj, rfl⟩ := h
      have := ih hj
      simp
      omega

lemma findIdx?_some_pred {p : Player → Bool} {l : List Player} {i : Nat}
    (h : l.findIdx? p = some i) : p (l.getD i default) = true := by
  induction l generalizing i with
  | nil => simp [List.findIdx?] at h
  | cons x xs ih =>
    rw [findIdx?_cons_eq] at h
    by_cases hx : p x
    · simp [hx] at h
      simp [← h, hx]
    · simp [hx] at h
      obtain ⟨j, hj, rfl⟩ := h
      simpa using ih hj

lemma updateFirstById_eq (l : List Player) (pid : String) (f : Player → Player) :
    updateFirstById l pid f =
      match l.findIdx? (fun q => q.id == pid) with
      | none => l
      | some i => l.set i (f (l.getD i default)) := by
  induction l with
  | nil => simp [updateFirstById, List.findIdx?]
  | cons x xs ih =>
    rw [updateFirstById, findIdx?_cons_eq]
    by_cases hx : x.id == pid
    · simp [hx]
    · simp only [hx, if_false, Bool.false_eq_true, ih]
      cases hfind : xs.findIdx? (fun q => q.id == pid) with
      | none => simp [hfind]
      | some j => simp [hfind]

lemma getD_set_ne {l : List Player} {i j : Nat} {a d : Player} (h : i ≠ j) :
    (l.set i a).getD j d = l.getD j d := by
  simp [List.getD_eq_getElem?_getD, List.getElem?_set, h]

lemma getD_set_self {l : List Player} {i : Nat} {a d : Player} (h : i < l.length) :
    (l.set i a).getD i d = a := by
  simp [List.getD_eq_getElem?_getD, List.getElem?_set, h]

lemma ids_set {l : List Player} {i : Nat} {a : Player}
    (h : a.id = (l.getD i default).id) :
    (l.set i a).map Player.id = l.map Player.id := by
  apply List.ext_getElem?
  intro n
  simp only [List.getElem?_map, List.getElem?_set]
  by_cases hn : i = n
  · subst hn
    by_cases hlt : i < l.length
    · have hgd : l.getD i default = l[i] := by
        rw [List.getD_eq_getElem?_getD, List.getElem?_eq_getElem hlt]
        rfl
      rw [if_pos rfl, if_pos hlt, List.getElem?_eq_getElem hlt]
      simp only [Option.map_some']
      rw [h, hgd]
    · have h1 : l[i]? = none := List.getElem?_eq_none (by omega)
      rw [if_pos rfl, if_neg hlt, h1]
  · simp [hn]

lemma ids_updateFirstById (l : List Player) (pid : String) (f : Player → Player)
    (hf : ∀ q, (f q).id = q.id) :
    (updateFirstById l pid f).map Player.id = l.map Player.id := by
  induction l with
  | nil => rfl
  | cons x xs ih =>
    rw [updateFirstById]
    by_cases hx : x.id == pid
    · simp [hx, hf]
    · simp [hx, ih]

lemma mem_eraseIdx_of_ne {l : List Player} {i : Nat} {q : Player}
    (hq : q ∈ l) (hne : q ≠ l.getD i default) : q ∈ l.eraseIdx i := by
  induction l generalizing i with
  | nil => simp at hq
  | cons x xs ih =>
    cases i with
    | zero =>
      rcases List.mem_cons.mp hq with h | h
      · exact absurd (by simpa using h) hne
      · simpa [List.eraseIdx_cons_zero] using h
    | succ j =>
      rcases List.mem_cons.mp hq with h | h
      · simp [List.eraseIdx_cons_succ, h]
      · have : q ∈ xs.eraseIdx j := ih h (by simpa using hne)
        simp [List.eraseIdx_cons_succ, this]

lemma exists_id_iff_mem_ids {l : List Player} {oid : String} :
    (∃ p, p ∈ l ∧ p.id = oid) ↔ oid ∈ l.map Player.id := by
  simp [List.mem_map]

lemma ownersActive_of_ids_eq {l₁ l₂ : List Player} {ps : PropMap}
    (h : l₁.map Player.id = l₂.map Player.id) (ha : ownersActive l₁ ps) :
    ownersActive l₂ ps := by
  intro e he oid hoid
  have := ha e he oid hoid
  rw [exists_id_iff_mem_ids] at this ⊢
  rwa [← h]

lemma ownersActive_handleBankruptcy {players : List Player} {ps : PropMap}
    {bankruptId : String} {creditorId : Option String} {logs : List String}
    (hc : ∀ cid, creditorId = some cid → cid ≠ bankruptId)
    (ha : ownersActive players ps) :
    ownersActive (handleBankruptcy players ps bankruptId creditorId logs).players
      (handleBankruptcy players ps bankruptId creditorId logs).propertyState := by
  unfold handleBankruptcy
  cases hidx : players.findIdx? (fun p => p.id == bankruptId) with
  | none => simpa using ha
  | some bi =>
    have hbid : (players.getD bi default).id = bankruptId := by
      have := findIdx?_some_pred hidx
      simpa using this
    simp only
    intro e' he' oid hoid
    obtain ⟨e, he, heq⟩ := List.mem_map.mp he'
    by_cases howner : e.snd.ownerId = some (players.getD bi default).id
    · cases hcred : creditorId.bind
        (fun cid => players.find? (fun p => p.id == cid)) with
      | none =>
        rw [hcred] at heq
        simp [howner] at heq
        rw [← heq] at hoid
        simp at hoid
      | some c =>
        rw [hcred] at heq
        simp [howner] at heq
        rw [← heq] at hoid
        simp at hoid
        obtain ⟨cid, hcid, hfind⟩ : ∃ cid, creditorId = some cid ∧
            players.find? (fun p => p.id == cid) = some c := by
          cases creditorId with
          | none => simp at hcred
          | some cid => exact ⟨cid, rfl, by simpa using hcred⟩
        have hcmem : c ∈ players := List.mem_of_find?_eq_some hfind
        have hcidc : c.id = cid := by
          have := List.find?_some hfind
          simpa using this
        refine ⟨c, mem_eraseIdx_of_ne hcmem ?_, by rw [hcidc, ← hoid, hcidc]⟩
        intro hcc
        exact hc cid hcid (by rw [← hcidc, hcc, hbid])
    · have hcond : (e.snd.ownerId == some (players.getD bi default).id) = false := by
        simpa using howner
      have heqe : e' = e := by
        rw [← heq, hcond]
        simp
      rw [heqe] at hoid
      obtain ⟨p, hp, hpid⟩ := ha e he oid hoid
      refine ⟨p, mem_eraseIdx_of_ne hp ?_, hpid⟩
      intro hpp
      apply howner
      rw [hoid, ← hpid, hpp]

lemma ids_payAmount_players1 (players : List Player) (pi : Nat) (payer : Player)
    (hp : payer.id = (players.getD pi default).id) (amt : Int) :
    (players.set pi { payer with funds := amt }).map Player.id
      = players.map Player.id :=
  ids_set (by simpa using hp)

lemma ownersActive_payAmount {players : List Player} {ps : PropMap}
    {payerId : String} {receiverId : Option String} {amount : Int} {logs : List String}
    (hrcv : ∀ rid, receiverId = some rid → rid ≠ payerId)
    (ha : ownersActive players ps) :
    ownersActive (payAmount players ps payerId receiverId amount logs).players
      (payAmount players ps payerId receiverId amount logs).propertyState := by
  unfold payAmount
  split
  · simpa using ha
  cases hidx : players.findIdx? (fun p => p.id == payerId) with
  | none => simpa using ha
  | some pi =>
    have hpid : (players.getD pi default).id = payerId := by
      have := findIdx?_some_pred hidx
      simpa using this
    simp only
    split
    · -- sufficient funds: property state unchanged, ids preserved
      apply ownersActive_of_ids_eq _ ha
      apply Eq.symm
      cases receiverId with
      | none =>
        simp only
        exact ids_set (by simp)
      | some rid =>
        simp only
        rw [ids_updateFirstById _ _ _ ?hf1, ids_set (by simp)]
        case hf1 => intro q; rfl
    · -- bankruptcy path
      apply ownersActive_handleBankruptcy
      · intro cid hcid hbad
        exact hrcv cid hcid (by rw [hbad, hpid])
      · apply ownersActive_of_ids_eq _ ha
        apply Eq.symm
        rw [ids_updateFirstById _ _ _ ?hf2]
        case hf2 => intro q; rfl
        cases receiverId with
        | none => rfl
        | some rid =>
          simp only
          split
          · rw [ids_updateFirstById _ _ _ ?hf3]
            case hf3 => intro q; rfl
          · rfl

lemma getD_mem {l : List Player} {i : Nat} (h : i < l.length) :
    l.getD i default ∈ l := by
  rw [List.getD_eq_getElem?_getD, List.getElem?_eq_getElem h]
  exact List.getElem_mem h

lemma ownersActive_updateProp_assign {players : List Player} {ps : PropMap}
    {tileId newId : String} (hnew : ∃ p, p ∈ players ∧ p.id = newId)
    (ha : ownersActive players ps) :
    ownersActive players (updateProp ps tileId (fun m => { m with ownerId := some newId })) := by
  intro e' he' oid hoid
  obtain ⟨e, he, heq⟩ := List.mem_map.mp he'
  by_cases hk : e.fst == tileId
  · rw [if_pos hk] at heq
    rw [← heq] at hoid
    simp at hoid
    rw [← hoid]
    exact hnew
  · rw [if_neg hk] at heq
    rw [← heq] at hoid
    exact ha e he oid hoid

lemma ownersActive_updateProp_keep {players : List Player} {ps : PropMap}
    {tileId : String} {f : PropertyState → PropertyState}
    (hf : ∀ m, (f m).ownerId = m.ownerId)
    (ha : ownersActive players ps) :
    ownersActive players (updateProp ps tileId f) := by
  intro e' he' oid hoid
  obtain ⟨e, he, heq⟩ := List.mem_map.mp he'
  by_cases hk : e.fst == tileId
  · rw [if_pos hk] at heq
    rw [← heq] at hoid
    simp only [hf] at hoid
    exact ha e he oid hoid
  · rw [if_neg hk] at heq
    rw [← heq] at hoid
    exact ha e he oid hoid

lemma ownersActive_moveTile {players : List Player} {ps : PropMap}
    {tileId sourceId targetId : String}
    (htgt : ∃ p, p ∈ players ∧ p.id = targetId)
    (ha : ownersActive players ps) :
    ownersActive players (moveTile ps tileId sourceId targetId) := by
  intro e' he' oid hoid
  obtain ⟨e, he, heq⟩ := List.mem_map.mp he'
  by_cases hk : e.fst == tileId && e.snd.ownerId == some sourceId
  · rw [if_pos hk] at heq
    rw [← heq] at hoid
    simp at hoid
    rw [← hoid]
    exact htgt
  · rw [if_neg hk] at heq
    rw [← heq] at hoid
    exact ha e he oid hoid

lemma ownersActive_moveTile_foldl {players : List Player} {tiles : List String}
    {sourceId targetId : String} {ps : PropMap}
    (htgt : ∃ p, p ∈ players ∧ p.id = targetId)
    (ha : ownersActive players ps) :
    ownersActive players
      (tiles.foldl (fun acc tileId => moveTile acc tileId sourceId targetId) ps) := by
  induction tiles generalizing ps with
  | nil => exact ha
  | cons t ts ih =>
    rw [List.foldl_cons]
    exact ih (ownersActive_moveTile htgt ha)

lemma ownersActive_payAmount_none {players : List Player} {ps : PropMap}
    {payerId : String} {amount : Int} {logs : List String}
    (ha : ownersActive players ps) :
    ownersActive (payAmount players ps payerId none amount logs).players
      (payAmount players ps payerId none amount logs).propertyState :=
  ownersActive_payAmount (fun rid h => by cases h) ha

lemma ownersActive_set {players : List Player} {ps : PropMap} {i : Nat} {a : Player}
    (hid : a.id = (players.getD i default).id)
    (ha : ownersActive players ps) :
    ownersActive (players.set i a) ps :=
  ownersActive_of_ids_eq (ids_set (by simpa using hid)).symm ha

lemma ownersActive_updateFirst {players : List Player} {ps : PropMap}
    {pid : String} {f : Player → Player} (hf : ∀ q, (f q).id = q.id)
    (ha : ownersActive players ps) :
    ownersActive (updateFirstById players pid f) ps :=
  ownersActive_of_ids_eq (ids_updateFirstById _ _ _ hf).symm ha

lemma ownersActive_resolveJailState {currentIndex dieA dieB : Nat}
    {players : List Player} {ps : PropMap} {logs : List String}
    (ha : ownersActive players ps) :
    ownersActive (resolveJailState currentIndex dieA dieB players ps logs).players
      (resolveJailState currentIndex dieA dieB players ps logs).propertyState := by
  unfold resolveJailState
  dsimp only
  repeat' split
  all_goals first
    | exact ha
    | exact ownersActive_set rfl ha
    | exact ownersActive_payAmount_none (ownersActive_set rfl ha)
    | exact ownersActive_updateFirst (fun q => rfl)
        (ownersActive_payAmount_none (ownersActive_set rfl ha))

lemma ownersActive_handleChanceOrChest {B : Board} {card : CardDefinition}
    {currentIndex : Nat} {players : List Player} {ps : PropMap}
    {logs : List String} {luckA luckB : Nat}
    (ha : ownersActive players ps) :
    ownersActive
      (handleChanceOrChest B card currentIndex players ps logs luckA luckB).players
      (handleChanceOrChest B card currentIndex players ps logs luckA luckB).propertyState := by
  unfold handleChanceOrChest
  cases card.effect with
  | collect amount => exact ownersActive_set rfl ha
  | pay amount => exact ownersActive_payAmount_none ha
  | move target => exact ownersActive_set (by rw [applyPassStartBonus]; split <;> rfl) ha
  | moveRelative offset =>
    simp only
    split
    · exact ownersActive_set (by rw [applyPassStartBonus]; split <;> rfl) ha
    · exact ownersActive_set rfl ha
  | advanceToNext tt =>
    simp only
    split
    · exact ha
    · exact ownersActive_set (by rw [applyPassStartBonus]; split <;> rfl) ha
  | repair houseCost hotelCost => exact ownersActive_payAmount_none ha
  | getOutOfJail => exact ownersActive_set rfl ha
  | goToJail => exact ownersActive_set rfl ha
  | luckCheck success failure =>
    simp only
    split
    · exact ownersActive_set rfl ha
    · exact ownersActive_payAmount_none ha

lemma ownersActive_moveStep {B : Board} {players : List Player} {currentIndex : Nat}
    {diceTotal : Nat} {logs : List String} {ps : PropMap}
    (ha : ownersActive players ps) :
    ownersActive (moveStep B players currentIndex diceTotal logs).players ps := by
  unfold moveStep
  dsimp only
  exact ownersActive_set (by rw [applyPassStartBonus]; split <;> rfl) ha

lemma applyPaymentRemoval_inv {state : GameState} {dieA dieB : Nat}
    {L : LandingLocals} {payment : PaymentOutcome}
    (h : ownersActive payment.players payment.propertyState) :
    landingOutcomeInv (applyPaymentRemoval state dieA dieB L payment) := by
  unfold applyPaymentRemoval
  cases hrm : payment.removedIndex with
  | none => exact h
  | some removed =>
    dsimp only
    repeat' split
    all_goals simp only [landingOutcomeInv, rollEarlyReturn]
    all_goals exact h

lemma ownersActive_resolveLanding {B : Board} {state : GameState}
    {dieA dieB luckA luckB : Nat} {L : LandingLocals}
    (ha : ownersActive L.players L.propertyState) :
    landingOutcomeInv (resolveLanding B state dieA dieB luckA luckB L) := by
  unfold resolveLanding
  dsimp only
  split
  · -- purchasable tile
    split
    · exact ha
    case h_2 tileState heq =>
      split
      · exact ha
      case h_2 ownerId howner =>
        split
        · exact ha
        · split
          · exact ha
          · -- rent settlement
            apply applyPaymentRemoval_inv
            apply ownersActive_payAmount _ ha
            intro rid hr hbad
            rename_i hne _
            apply hne
            rw [← hbad]
            simpa using hr
  · split
    · -- tax
      apply applyPaymentRemoval_inv
      exact ownersActive_payAmount_none ha
    · -- chance
      split
      · exact ownersActive_set rfl (ownersActive_handleChanceOrChest ha)
      · exact ownersActive_handleChanceOrChest ha
    · -- chest
      split
      · exact ownersActive_set rfl (ownersActive_handleChanceOrChest ha)
      · exact ownersActive_handleChanceOrChest ha
    · -- gotojail
      exact ownersActive_set rfl ha
    · exact ha

lemma ownersActive_finishRoll {state : GameState} {dieA dieB : Nat} {L : LandingLocals}
    (ha : ownersActive L.players L.propertyState) :
    ownersActive (finishRoll state dieA dieB L).players
      (finishRoll state dieA dieB L).propertyState := by
  unfold finishRoll
  dsimp only
  repeat' split
  all_goals exact ha

lemma ownersActive_tripleDoublesReturn {B : Board} {state : GameState}
    {dieA dieB currentIndex : Nat} {logs : List String}
    (ha : ownersActive state.players state.propertyState) :
    ownersActive (tripleDoublesReturn B state dieA dieB currentIndex logs).players
      (tripleDoublesReturn B state dieA dieB currentIndex logs).propertyState := by
  unfold tripleDoublesReturn rollEarlyReturn
  dsimp only
  exact ownersActive_set rfl ha

lemma resolveLanding_error_inv {B : Board} {state : GameState}
    {dA dB lA lB : Nat} {L : LandingLocals} {g : GameState}
    (ha : ownersActive L.players L.propertyState)
    (h : resolveLanding B state dA dB lA lB L = Except.error g) :
    ownersActive g.players g.propertyState := by
  have h2 : landingOutcomeInv (resolveLanding B state dA dB lA lB L) :=
    ownersActive_resolveLanding ha
  unfold landingOutcomeInv at h2
  rw [h] at h2
  exact h2

lemma resolveLanding_ok_inv {B : Board} {state : GameState}
    {dA dB lA lB : Nat} {L : LandingLocals} {L1 : LandingLocals}
    (ha : ownersActive L.players L.propertyState)
    (h : resolveLanding B state dA dB lA lB L = Except.ok L1) :
    ownersActive L1.players L1.propertyState := by
  have h2 : landingOutcomeInv (resolveLanding B state dA dB lA lB L) :=
    ownersActive_resolveLanding ha
  unfold landingOutcomeInv at h2
  rw [h] at h2
  exact h2

lemma ownersActive_rollAfterJail {B : Board} {state : GameState}
    {dieA dieB luckA luckB currentIndex consecutiveDoubles : Nat}
    {stayOnCurrentPlayer : Bool} {jr : JailOutcome}
    (hj : ownersActive jr.players jr.propertyState) :
    ownersActive (rollAfterJail B state dieA dieB luckA luckB currentIndex
        consecutiveDoubles stayOnCurrentPlayer jr).players
      (rollAfterJail B state dieA dieB luckA luckB currentIndex
        consecutiveDoubles stayOnCurrentPlayer jr).propertyState := by
  unfold rollAfterJail
  dsimp only
  have hmove : ownersActive
      (moveStep B jr.players (match jr.removedIndex with
        | some ri => if ri < currentIndex then currentIndex - 1 else currentIndex
        | none => currentIndex) (dieA + dieB) jr.logs).players
      jr.propertyState := ownersActive_moveStep hj
  split
  · simp only [rollEarlyReturn]
    exact hj
  · split
    · simp only [rollEarlyReturn]
      exact hj
    · split
      case h_1 finished hres => exact resolveLanding_error_inv hmove hres
      case h_2 L1 hres => exact ownersActive_finishRoll (resolveLanding_ok_inv hmove hres)

lemma ownersActive_doRollInternal {B : Board} {state : GameState}
    {dieA dieB luckA luckB : Nat}
    (ha : ownersActive state.players state.propertyState) :
    ownersActive (doRollInternal B state dieA dieB luckA luckB).players
      (doRollInternal B state dieA dieB luckA luckB).propertyState := by
  unfold doRollInternal
  dsimp only
  repeat' split
  all_goals first
    | exact ownersActive_tripleDoublesReturn ha
    | exact ownersActive_rollAfterJail (ownersActive_resolveJailState ha)

lemma ids_mapIdx (l : List Player) (f : Nat → Player → Player)
    (hf : ∀ i p, (f i p).id = p.id) :
    (l.mapIdx f).map Player.id = l.map Player.id := by
  induction l generalizing f with
  | nil => rfl
  | cons x xs ih =>
    rw [List.mapIdx_cons]
    simp only [List.map_cons, hf]
    rw [ih (fun i => f (i + 1)) (fun i p => hf (i + 1) p)]

lemma get?_mem {l : List Player} {i : Nat} {a : Player} (h : l.get? i = some a) :
    a ∈ l := by
  rw [List.get?_eq_getElem?] at h
  exact List.getElem?_mem h

lemma ownersActive_rollDiceAndResolve {B : Board} {state : GameState}
    {dieA dieB luckA luckB : Nat}
    (ha : ownersActive state.players state.propertyState) :
    ownersActive (rollDiceAndResolve B state dieA dieB luckA luckB).players
      (rollDiceAndResolve B state dieA dieB luckA luckB).propertyState := by
  unfold rollDiceAndResolve
  split
  · exact ha
  · exact ownersActive_doRollInternal ha

lemma ownersActive_confirmPurchase {B : Board} {state : GameState}
    (ha : ownersActive state.players state.propertyState) :
    ownersActive (confirmPurchase B state).players
      (confirmPurchase B state).propertyState := by
  unfold confirmPurchase
  split
  case h_2 => exact ha
  split
  · exact ha
  dsimp only
  split
  · exact ha
  case h_2 buyerIndex hidx =>
    split
    · exact ha
    · dsimp only
      refine ownersActive_set rfl ?_
      refine ownersActive_updateProp_assign ?_ ha
      exact ⟨state.players.getD buyerIndex default,
        getD_mem (findIdx?_some_lt hidx), rfl⟩

lemma ownersActive_declinePurchase {state : GameState}
    (ha : ownersActive state.players state.propertyState) :
    ownersActive (declinePurchase state).players
      (declinePurchase state).propertyState := by
  unfold declinePurchase
  repeat' split
  all_goals exact ha

lemma ownersActive_requestUpgrade {B : Board} {state : GameState} {tileId : String}
    (ha : ownersActive state.players state.propertyState) :
    ownersActive (requestUpgrade B state tileId).players
      (requestUpgrade B state tileId).propertyState := by
  unfold requestUpgrade
  dsimp only
  repeat' split
  all_goals exact ha

lemma ownersActive_confirmUpgrade {B : Board} {state : GameState}
    (ha : ownersActive state.players state.propertyState) :
    ownersActive (confirmUpgrade B state).players
      (confirmUpgrade B state).propertyState := by
  unfold confirmUpgrade
  dsimp only
  repeat' split
  all_goals try exact ha
  all_goals dsimp only
  all_goals refine ownersActive_set ?_ (ownersActive_updateProp_keep (fun m => ?_) ha)
  all_goals rfl

lemma ownersActive_declineUpgrade {state : GameState}
    (ha : ownersActive state.players state.propertyState) :
    ownersActive (declineUpgrade state).players
      (declineUpgrade state).propertyState := ha

lemma ownersActive_mortgageProperty {B : Board} {state : GameState} {tileId : String}
    (ha : ownersActive state.players state.propertyState) :
    ownersActive (mortgageProperty B state tileId).players
      (mortgageProperty B state tileId).propertyState := by
  unfold mortgageProperty
  dsimp only
  repeat' split
  all_goals try exact ha
  all_goals dsimp only
  all_goals refine ownersActive_of_ids_eq (ids_mapIdx _ _ (fun i p => ?_)).symm (ownersActive_updateProp_keep (fun m => ?_) ha)
  all_goals first
    | (split <;> rfl)
    | rfl

lemma ownersActive_redeemProperty {B : Board} {state : GameState} {tileId : String}
    (ha : ownersActive state.players state.propertyState) :
    ownersActive (redeemProperty B state tileId).players
      (redeemProperty B state tileId).propertyState := by
  unfold redeemProperty
  dsimp only
  repeat' split
  all_goals try exact ha
  all_goals dsimp only
  all_goals refine ownersActive_of_ids_eq (ids_mapIdx _ _ (fun i p => ?_)).symm (ownersActive_updateProp_keep (fun m => ?_) ha)
  all_goals first
    | (split <;> rfl)
    | rfl

lemma ownersActive_claimPledgeFrom {B : Board} {state : GameState}
    {fromPlayerId tileId : String}
    (ha : ownersActive state.players state.propertyState) :
    ownersActive (claimPledgeFrom B state fromPlayerId tileId).players
      (claimPledgeFrom B state fromPlayerId tileId).propertyState := by
  unfold claimPledgeFrom
  split
  case h_1 => exact ha
  case h_2 activePlayer hget =>
    split
    · exact ha
    split
    case h_1 => exact ha
    split
    case h_1 => exact ha
    split
    · exact ha
    · exact ownersActive_updateProp_assign ⟨activePlayer, get?_mem hget, rfl⟩ ha

lemma ownersActive_append {l l2 : List Player} {ps : PropMap}
    (ha : ownersActive l ps) : ownersActive (l ++ l2) ps := by
  intro e he oid hoid
  obtain ⟨p, hp, hpid⟩ := ha e he oid hoid
  exact ⟨p, List.mem_append_left _ hp, hpid⟩

lemma ownersActive_createPropertyState {B : Board} {players : List Player} :
    ownersActive players (createPropertyState B) := by
  intro e he oid hoid
  unfold createPropertyState at he
  obtain ⟨tile, _, heq⟩ := List.mem_map.mp he
  rw [← heq] at hoid
  simp at hoid

lemma ownersActive_of_ids_eq2 {l₂ : List Player} {ps : PropMap} (l₁ : List Player)
    (ha : ownersActive l₁ ps) (h : l₁.map Player.id = l₂.map Player.id) :
    ownersActive l₂ ps := ownersActive_of_ids_eq h ha

lemma ownersActive_sendTradeProposal {state : GameState} {payload : TradePayload}
    (ha : ownersActive state.players state.propertyState) :
    ownersActive (sendTradeProposal state payload).fst.players
      (sendTradeProposal state payload).fst.propertyState := by
  unfold sendTradeProposal
  dsimp only
  repeat' split
  all_goals exact ha

lemma ownersActive_acceptTradeProposal {state : GameState}
    (ha : ownersActive state.players state.propertyState) :
    ownersActive (acceptTradeProposal state).fst.players
      (acceptTradeProposal state).fst.propertyState := by
  unfold acceptTradeProposal
  split
  case h_1 => exact ha
  case h_2 trade htr =>
    dsimp only
    split
    case h_2 => exact ha
    case h_1 fromIndex toIndex hfrom hto =>
      split
      · exact ha
      split
      · exact ha
      dsimp only
      refine ownersActive_of_ids_eq2 state.players ?_ ?_
      case refine_1 =>
        refine ownersActive_moveTile_foldl ?_ (ownersActive_moveTile_foldl ?_ ha)
        · exact ⟨state.players.getD fromIndex default,
            getD_mem (findIdx?_some_lt hfrom), rfl⟩
        · exact ⟨state.players.getD toIndex default,
            getD_mem (findIdx?_some_lt hto), rfl⟩
      case refine_2 =>
        rw [ids_set (by simp), ids_set (by simp)]

lemma ownersActive_rejectTradeProposal {state : GameState} {initiatorId : Option String}
    (ha : ownersActive state.players state.propertyState) :
    ownersActive (rejectTradeProposal state initiatorId).fst.players
      (rejectTradeProposal state initiatorId).fst.propertyState := by
  unfold rejectTradeProposal
  dsimp only
  repeat' split
  all_goals exact ha

lemma ownersActive_leaveJailByPayment {state : GameState} {playerId : String}
    (ha : ownersActive state.players state.propertyState) :
    ownersActive (leaveJailByPayment state playerId).players
      (leaveJailByPayment state playerId).propertyState := by
  unfold leaveJailByPayment
  dsimp only
  repeat' split
  all_goals first
    | exact ha
    | exact ownersActive_payAmount_none ha
    | exact ownersActive_updateFirst (fun q => rfl) (ownersActive_payAmount_none ha)

lemma ownersActive_useJailCard {state : GameState} {playerId : String}
    (ha : ownersActive state.players state.propertyState) :
    ownersActive (useJailCard state playerId).players
      (useJailCard state playerId).propertyState := by
  unfold useJailCard
  dsimp only
  repeat' split
  all_goals first
    | exact ha
    | exact ownersActive_set rfl ha

lemma ownersActive_addPlayer {B : Board} {state : GameState} {seed : PlayerSeed}
    (ha : ownersActive state.players state.propertyState) :
    ownersActive (addPlayer B state seed).players
      (addPlayer B state seed).propertyState := ownersActive_append ha

lemma ownersActive_setPlayers {B : Board} {state : GameState} {seeds : List PlayerSeed} :
    ownersActive (setPlayers B state seeds).players
      (setPlayers B state seeds).propertyState :=
  ownersActive_createPropertyState

lemma ownersActive_reset {B : Board} {state : GameState} :
    ownersActive (reset B state).players (reset B state).propertyState :=
  ownersActive_createPropertyState

lemma map_set_eq {β : Type} (l : List Player) (i : Nat) (a : Player) (f : Player → β)
    (h : f a = f (l.getD i default)) : (l.set i a).map f = l.map f := by
  apply List.ext_getElem?
  intro n
  simp only [List.getElem?_map, List.getElem?_set]
  by_cases hn : i = n
  · subst hn
    by_cases hlt : i < l.length
    · have hgd : l.getD i default = l[i] := by
        rw [List.getD_eq_getElem?_getD, List.getElem?_eq_getElem hlt]
        rfl
      rw [if_pos rfl, if_pos hlt, List.getElem?_eq_getElem hlt]
      simp only [Option.map_some']
      rw [h, hgd]
    · have h1 : l[i]? = none := List.getElem?_eq_none (by omega)
      rw [if_pos rfl, if_neg hlt, h1]
  · simp [hn]

lemma findIdx?_congr (p : Player → Bool) (l₁ l₂ : List Player)
    (h : l₁.map p = l₂.map p) : l₁.findIdx? p = l₂.findIdx? p := by
  have h1 : List.findIdx? (fun b => b) (l₁.map p) = l₁.findIdx? p := by
    rw [List.findIdx?_map]
    rfl
  have h2 : List.findIdx? (fun b => b) (l₂.map p) = l₂.findIdx? p := by
    rw [List.findIdx?_map]
    rfl
  rw [← h1, ← h2, h]

lemma updateFirstById_set_form {l : List Player} {pid : String} {i : Nat}
    (f : Player → Player) (hidx : l.findIdx? (fun q => q.id == pid) = some i) :
    updateFirstById l pid f = l.set i (f (l.getD i default)) := by
  rw [updateFirstById_eq, hidx]

lemma payAmount_noop {players : List Player} {ps : PropMap} {payerId : String}
    {receiverId : Option String} {amount : Int} {logs : List String}
    (h : amount ≤ 0) :
    payAmount players ps payerId receiverId amount logs =
      { players := players, propertyState := ps, logs := logs,
        removedIndex := none, bankruptPlayerId := none } := by
  unfold payAmount
  rw [if_pos h]

lemma payAmount_sufficient_receiver {players : List Player} {ps : PropMap}
    {payerId rid : String} {amount : Int} {logs : List String} {pi ri : Nat}
    (hamt : 0 < amount)
    (hpi : players.findIdx? (fun q => q.id == payerId) = some pi)
    (hfunds : (players.getD pi default).funds ≥ amount)
    (hri : players.findIdx? (fun q => q.id == rid) = some ri)
    (hne : ri ≠ pi) :
    payAmount players ps payerId (some rid) amount logs =
      { players := (players.set pi { players.getD pi default with
            funds := (players.getD pi default).funds - amount }).set ri
          { players.getD ri default with
            funds := (players.getD ri default).funds + amount },
        propertyState := ps, logs := logs,
        removedIndex := none, bankruptPlayerId := none } := by
  unfold payAmount
  rw [if_neg (by omega), hpi]
  dsimp only
  rw [if_pos hfunds]
  have hri2 : (players.set pi { players.getD pi default with
      funds := (players.getD pi default).funds - amount }).findIdx?
        (fun q => q.id == rid) = some ri := by
    rw [findIdx?_congr _ _ players (map_set_eq _ _ _ _ (by simp))]
    exact hri
  rw [updateFirstById_set_form _ hri2, getD_set_ne (fun hc => hne hc.symm)]

lemma payAmount_sufficient_bank {players : List Player} {ps : PropMap}
    {payerId : String} {amount : Int} {logs : List String} {pi : Nat}
    (hamt : 0 < amount)
    (hpi : players.findIdx? (fun q => q.id == payerId) = some pi)
    (hfunds : (players.getD pi default).funds ≥ amount) :
    payAmount players ps payerId none amount logs =
      { players := players.set pi { players.getD pi default with
          funds := (players.getD pi default).funds - amount },
        propertyState := ps, logs := logs,
        removedIndex := none, bankruptPlayerId := none } := by
  unfold payAmount
  rw [if_neg (by omega), hpi]
  dsimp only
  rw [if_pos hfunds]

lemma set_getD_self (l : List Player) (i : Nat) :
    l.set i (l.getD i default) = l := by
  apply List.ext_getElem?
  intro n
  rw [List.getElem?_set]
  by_cases hn : i = n
  · subst hn
    by_cases hlt : i < l.length
    · rw [if_pos rfl, if_pos hlt, List.getD_eq_getElem?_getD,
        List.getElem?_eq_getElem hlt]
      rfl
    · rw [if_pos rfl, if_neg hlt, Eq.comm]
      exact List.getElem?_eq_none (by omega)
  · rw [if_neg hn]

lemma payAmount_insufficient_bank {players : List Player} {ps : PropMap}
    {payerId : String} {amount : Int} {logs : List String} {pi : Nat}
    (hamt : 0 < amount)
    (hpi : players.findIdx? (fun q => q.id == payerId) = some pi)
    (hfunds : (players.getD pi default).funds < amount) :
    payAmount players ps payerId none amount logs =
      handleBankruptcy
        (players.set pi { players.getD pi default with funds := 0 })
        ps payerId none logs := by
  have hpayerid : (players.getD pi default).id = payerId := by
    simpa using findIdx?_some_pred hpi
  unfold payAmount
  rw [if_neg (by omega), hpi]
  dsimp only
  rw [if_neg (by omega)]
  have hpi2 : players.findIdx?
      (fun q => q.id == (players.getD pi default).id) = some pi := by
    rw [hpayerid]
    exact hpi
  rw [updateFirstById_set_form _ hpi2, hpayerid]

lemma payAmount_insufficient_receiver {players : List Player} {ps : PropMap}
    {payerId rid : String} {amount : Int} {logs : List String} {pi ri : Nat}
    (hamt : 0 < amount)
    (hpi : players.findIdx? (fun q => q.id == payerId) = some pi)
    (hfund0 : 0 ≤ (players.getD pi default).funds)
    (hfunds : (players.getD pi default).funds < amount)
    (hri : players.findIdx? (fun q => q.id == rid) = some ri)
    (hne : ri ≠ pi) :
    payAmount players ps payerId (some rid) amount logs =
      handleBankruptcy
        ((players.set ri { players.getD ri default with
            funds := (players.getD ri default).funds +
              (players.getD pi default).funds }).set pi
          { players.getD pi default with funds := 0 })
        ps payerId (some rid) logs := by
  have hpayerid : (players.getD pi default).id = payerId := by
    simpa using findIdx?_some_pred hpi
  unfold payAmount
  rw [if_neg (by omega), hpi]
  dsimp only
  rw [if_neg (by omega)]
  by_cases hav : (players.getD pi default).funds > 0
  · rw [if_pos hav]
    rw [updateFirstById_set_form _ hri]
    have hpi2 : (players.set ri { players.getD ri default with
        funds := (players.getD ri default).funds +
          (players.getD pi default).funds }).findIdx?
        (fun q => q.id == (players.getD pi default).id) = some pi := by
      rw [findIdx?_congr _ _ players (map_set_eq _ _ _ _ (by simp)), hpayerid]
      exact hpi
    rw [updateFirstById_set_form _ hpi2,
      getD_set_ne (fun hc => hne hc), hpayerid]
  · rw [if_neg hav]
    have hz : (players.getD pi default).funds = 0 := by omega
    have hcredit : ({ players.getD ri default with
        funds := (players.getD ri default).funds +
          (players.getD pi default).funds } : Player) = players.getD ri default := by
      rw [hz, Int.add_zero]
    rw [hcredit, set_getD_self]
    have hpi2 : players.findIdx?
        (fun q => q.id == (players.getD pi default).id) = some pi := by
      rw [hpayerid]
      exact hpi
    rw [updateFirstById_set_form _ hpi2, hpayerid]

lemma lookupProp_map_value (ps : PropMap) (g : PropertyState → PropertyState)
    (k : String) :
    lookupProp (ps.map (fun e => (e.fst, g e.snd))) k = (lookupProp ps k).map g := by
  induction ps with
  | nil => rfl
  | cons e rest ih =>
    unfold lookupProp
    rw [List.map_cons, List.find?_cons, List.find?_cons]
    by_cases hk : e.fst == k
    · simp only [hk]
      rfl
    · simp only [hk]
      exact ih

lemma handleBankruptcy_props_map {players : List Player} {ps : PropMap}
    {bankruptId : String} {creditorId : Option String} {logs : List String} {bi : Nat}
    (hbi : players.findIdx? (fun q => q.id == bankruptId) = some bi) :
    (handleBankruptcy players ps bankruptId creditorId logs).propertyState =
      ps.map (fun e => (e.fst, (fun m =>
        if m.ownerId = some bankruptId then
          match creditorId.bind (fun cid => players.find? (fun p => p.id == cid)) with
          | some c => { m with ownerId := some c.id }
          | none => { m with ownerId := none, houses := 0, mortgaged := false }
        else m) e.snd)) := by
  have hbid : (players.getD bi default).id = bankruptId := by
    simpa using findIdx?_some_pred hbi
  unfold handleBankruptcy
  rw [hbi]
  dsimp only
  apply List.map_congr_left
  intro e he
  rw [hbid]
  by_cases hc : e.snd.ownerId = some bankruptId
  · rw [if_pos (by simpa using hc), if_pos hc]
    cases creditorId.bind (fun cid => players.find? (fun p => p.id == cid)) <;> rfl
  · rw [if_neg (by simpa using hc), if_neg hc]

lemma handleBankruptcy_spec {players : List Player} {ps : PropMap}
    {bankruptId : String} {creditorId : Option String} {logs : List String} {bi : Nat}
    (hbi : players.findIdx? (fun q => q.id == bankruptId) = some bi) :
    (handleBankruptcy players ps bankruptId creditorId logs).players =
        players.eraseIdx bi ∧
      (handleBankruptcy players ps bankruptId creditorId logs).removedIndex = some bi ∧
      (handleBankruptcy players ps bankruptId creditorId logs).bankruptPlayerId =
        some bankruptId ∧
      ∀ k, lookupProp (handleBankruptcy players ps bankruptId creditorId logs).propertyState k =
        (lookupProp ps k).map (fun m =>
          if m.ownerId = some bankruptId then
            match creditorId.bind (fun cid => players.find? (fun p => p.id == cid)) with
            | some c => { m with ownerId := some c.id }
            | none => { m with ownerId := none, houses := 0, mortgaged := false }
          else m) := by
  have hbid : (players.getD bi default).id = bankruptId := by
    simpa using findIdx?_some_pred hbi
  refine ⟨?_, ?_, ?_, ?_⟩
  · unfold handleBankruptcy
    rw [hbi]
  · unfold handleBankruptcy
    rw [hbi]
  · unfold handleBankruptcy
    rw [hbi]
    dsimp only
    rw [hbid]
  · intro k
    rw [handleBankruptcy_props_map hbi]
    exact lookupProp_map_value ps (fun m =>
      if m.ownerId = some bankruptId then
        match creditorId.bind (fun cid => players.find? (fun p => p.id == cid)) with
        | some c => { m with ownerId := some c.id }
        | none => { m with ownerId := none, houses := 0, mortgaged := false }
      else m) k

lemma lookupProp_updateProp (ps : PropMap) (tileId : String)
    (f : PropertyState → PropertyState) (k : String) :
    lookupProp (updateProp ps tileId f) k =
      if k = tileId then (lookupProp ps k).map f else lookupProp ps k := by
  induction ps with
  | nil => simp [updateProp, lookupProp]
  | cons e rest ih =>
    unfold updateProp lookupProp at ih ⊢
    rw [List.map_cons, List.find?_cons, List.find?_cons]
    have hpm : ((if (e.fst == tileId) = true then (e.fst, f e.snd) else e).fst == k)
        = (e.fst == k) := by
      by_cases ht : (e.fst == tileId) = true
      · rw [if_pos ht]
      · rw [if_neg ht]
    rw [hpm]
    by_cases hk : (e.fst == k) = true
    · rw [hk]
      dsimp only
      have hk2 : e.fst = k := by simpa using hk
      by_cases ht : (e.fst == tileId) = true
      · have ht2 : e.fst = tileId := by simpa using ht
        rw [if_pos ht, if_pos (by rw [← hk2, ht2])]
        rfl
      · have ht2 : ¬ e.fst = tileId := by simpa using ht
        rw [if_neg ht, if_neg (by rw [← hk2]; exact ht2)]
    · have hkf : (e.fst == k) = false := by simpa using hk
      rw [hkf]
      dsimp only
      exact ih

lemma lookupProp_moveTile (ps : PropMap) (tileId sourceId targetId : String)
    (k : String) :
    lookupProp (moveTile ps tileId sourceId targetId) k =
      (lookupProp ps k).map (fun m =>
        if k = tileId ∧ m.ownerId = some sourceId then
          { m with ownerId := some targetId }
        else m) := by
  induction ps with
  | nil => simp [moveTile, lookupProp]
  | cons e rest ih =>
    unfold moveTile lookupProp at ih ⊢
    rw [List.map_cons, List.find?_cons, List.find?_cons]
    have hpm : ((if (e.fst == tileId && e.snd.ownerId == some sourceId) = true then
          (e.fst, { e.snd with ownerId := some targetId }) else e).fst == k)
        = (e.fst == k) := by
      by_cases hc : (e.fst == tileId && e.snd.ownerId == some sourceId) = true
      · rw [if_pos hc]
      · rw [if_neg hc]
    rw [hpm]
    by_cases hk : (e.fst == k) = true
    · rw [hk]
      dsimp only
      have hk2 : e.fst = k := by simpa using hk
      by_cases hc : (e.fst == tileId && e.snd.ownerId == some sourceId) = true
      · have hc2 : e.fst = tileId ∧ e.snd.ownerId = some sourceId := by simpa using hc
        rw [if_pos hc]
        simp only [Option.map_some']
        rw [if_pos (by rw [← hk2]; exact hc2)]
      · have hc2 : ¬ (e.fst = tileId ∧ e.snd.ownerId = some sourceId) := by
          simpa using hc
        rw [if_neg hc]
        simp only [Option.map_some']
        rw [if_neg (by rw [← hk2]; exact hc2)]
    · have hkf : (e.fst == k) = false := by simpa using hk
      rw [hkf]
      dsimp only
      exact ih

lemma lookupProp_foldl_moveTile (tiles : List String) (ps : PropMap)
    (src tgt : String) (hne : src ≠ tgt) (k : String) :
    lookupProp (tiles.foldl (fun acc t => moveTile acc t src tgt) ps) k =
      (lookupProp ps k).map (fun m =>
        if k ∈ tiles ∧ m.ownerId = some src then { m with ownerId := some tgt }
        else m) := by
  induction tiles generalizing ps with
  | nil =>
    rw [List.foldl_nil]
    cases lookupProp ps k <;> simp
  | cons t ts ih =>
    rw [List.foldl_cons, ih, lookupProp_moveTile]
    cases hlk : lookupProp ps k with
    | none => rfl
    | some m =>
      simp only [Option.map_some']
      by_cases h1 : k = t ∧ m.ownerId = some src
      · rw [if_pos h1]
        have h2 : ¬ (k ∈ ts ∧
            ({ m with ownerId := some tgt } : PropertyState).ownerId = some src) := by
          intro hcon
          exact hne (by simpa using hcon.2.symm)
        rw [if_neg h2]
        rw [if_pos ⟨by rw [h1.1]; exact List.mem_cons_self t ts, h1.2⟩]
      · rw [if_neg h1]
        by_cases h3 : k ∈ ts ∧ m.ownerId = some src
        · rw [if_pos h3, if_pos ⟨List.mem_cons_of_mem t h3.1, h3.2⟩]
        · rw [if_neg h3]
          have h4 : ¬ (k ∈ t :: ts ∧ m.ownerId = some src) := by
            intro hcon
            rcases List.mem_cons.mp hcon.1 with hh | hh
            · exact h1 ⟨hh, hcon.2⟩
            · exact h3 ⟨hh, hcon.2⟩
          rw [if_neg h4]

lemma validateTiles_mem {ps : PropMap} {ids : List String} {oid : String}
    (hv : validateTiles ps ids oid = true) {k : String} (hk : k ∈ ids) :
    (lookupProp ps k).bind (fun m => m.ownerId) = some oid := by
  unfold validateTiles at hv
  have := List.all_eq_true.mp hv k hk
  simpa using this

lemma acceptTrade_insufficient {state : GameState} {trade : TradeProposal}
    {fi ti : Nat}
    (htr : state.pendingTrade = some trade)
    (hf : state.players.findIdx? (fun q => q.id == trade.fromId) = some fi)
    (ht : state.players.findIdx? (fun q => q.id == trade.toId) = some ti)
    (hbad : (state.players.getD fi default).funds < trade.giveCash ∨
      (state.players.getD ti default).funds < trade.receiveCash) :
    acceptTradeProposal state =
      ({ state with
          pendingTrade := none
          logs := addLog state.logs ("Trade between " ++
            (state.players.getD fi default).name ++ " and " ++
            (state.players.getD ti default).name ++
            " failed due to insufficient funds.") }, false) := by
  unfold acceptTradeProposal
  rw [htr]
  dsimp only
  rw [hf, ht]
  dsimp only
  rw [if_pos (by
    rw [Bool.or_eq_true, decide_eq_true_eq, decide_eq_true_eq]
    exact hbad)]

lemma acceptTrade_stale {state : GameState} {trade : TradeProposal}
    {fi ti : Nat}
    (htr : state.pendingTrade = some trade)
    (hf : state.players.findIdx? (fun q => q.id == trade.fromId) = some fi)
    (ht : state.players.findIdx? (fun q => q.id == trade.toId) = some ti)
    (hg : ¬ (state.players.getD fi default).funds < trade.giveCash)
    (hr : ¬ (state.players.getD ti default).funds < trade.receiveCash)
    (hbad : validateTiles state.propertyState trade.giveTiles
        (state.players.getD fi default).id = false ∨
      validateTiles state.propertyState trade.receiveTiles
        (state.players.getD ti default).id = false) :
    acceptTradeProposal state =
      ({ state with
          pendingTrade := none
          logs := addLog state.logs ("Trade between " ++
            (state.players.getD fi default).name ++ " and " ++
            (state.players.getD ti default).name ++
            " failed because ownership changed.") }, false) := by
  unfold acceptTradeProposal
  rw [htr]
  dsimp only
  rw [hf, ht]
  dsimp only
  rw [if_neg (by
    rw [Bool.or_eq_true, decide_eq_true_eq, decide_eq_true_eq]
    rintro (h | h)
    · exact hg h
    · exact hr h)]
  rw [if_pos (by rcases hbad with h | h <;> rw [h] <;> simp)]

lemma acceptTrade_success {state : GameState} {trade : TradeProposal}
    {fi ti : Nat}
    (htr : state.pendingTrade = some trade)
    (hf : state.players.findIdx? (fun q => q.id == trade.fromId) = some fi)
    (ht : state.players.findIdx? (fun q => q.id == trade.toId) = some ti)
    (hg : ¬ (state.players.getD fi default).funds < trade.giveCash)
    (hr : ¬ (state.players.getD ti default).funds < trade.receiveCash)
    (hvg : validateTiles state.propertyState trade.giveTiles
      (state.players.getD fi default).id = true)
    (hvr : validateTiles state.propertyState trade.receiveTiles
      (state.players.getD ti default).id = true)
    (hne : fi ≠ ti) :
    acceptTradeProposal state =
      ({ state with
          players := (state.players.set fi { state.players.getD fi default with
              funds := (state.players.getD fi default).funds - trade.giveCash +
                trade.receiveCash }).set ti { state.players.getD ti default with
              funds := (state.players.getD ti default).funds + trade.giveCash -
                trade.receiveCash }
          propertyState := trade.receiveTiles.foldl (fun acc tileId =>
              moveTile acc tileId (state.players.getD ti default).id
                (state.players.getD fi default).id)
            (trade.giveTiles.foldl (fun acc tileId =>
              moveTile acc tileId (state.players.getD fi default).id
                (state.players.getD ti default).id) state.propertyState)
          pendingTrade := none
          logs := addLog state.logs ((state.players.getD fi default).name ++
            " and " ++ (state.players.getD ti default).name ++
            " completed a trade.") }, true) := by
  unfold acceptTradeProposal
  rw [htr]
  dsimp only
  rw [hf, ht]
  dsimp only
  rw [if_neg (by
    rw [Bool.or_eq_true, decide_eq_true_eq, decide_eq_true_eq]
    rintro (h | h)
    · exact hg h
    · exact hr h)]
  rw [if_neg (by rw [hvg, hvr]; simp)]
  rw [getD_set_ne hne]

lemma sendTrade_outstanding {state : GameState} {payload : TradePayload}
    (h : state.pendingTrade.isSome) :
    sendTradeProposal state payload = (state, false) := by
  unfold sendTradeProposal
  rw [if_pos h]

lemma sendTrade_unknown {state : GameState} {payload : TradePayload}
    (hempty : state.pendingTrade = none)
    (h : state.players.find? (fun q => q.id == payload.fromId) = none ∨
      state.players.find? (fun q => q.id == payload.toId) = none) :
    sendTradeProposal state payload = (state, false) := by
  unfold sendTradeProposal
  rw [if_neg (by rw [hempty]; simp)]
  rcases h with h | h
  · rw [h]
  · rw [h]
    cases state.players.find? (fun q => q.id == payload.fromId) <;> rfl

lemma sendTrade_empty {state : GameState} {payload : TradePayload}
    {fromPlayer toPlayer : Player}
    (hempty : state.pendingTrade = none)
    (hfrom : state.players.find? (fun q => q.id == payload.fromId) = some fromPlayer)
    (hto : state.players.find? (fun q => q.id == payload.toId) = some toPlayer)
    (hgc : max 0 payload.giveCash = 0)
    (hrc : max 0 payload.receiveCash = 0)
    (hgt : (uniqueArray payload.giveTiles).filter (fun tileId =>
      ((lookupProp state.propertyState tileId).bind (fun m => m.ownerId)) ==
        some fromPlayer.id) = [])
    (hrt : (uniqueArray payload.receiveTiles).filter (fun tileId =>
      ((lookupProp state.propertyState tileId).bind (fun m => m.ownerId)) ==
        some toPlayer.id) = []) :
    sendTradeProposal state payload = (state, false) := by
  unfold sendTradeProposal
  rw [if_neg (by rw [hempty]; simp), hfrom, hto]
  dsimp only
  by_cases hid : fromPlayer.id == toPlayer.id
  · rw [if_pos hid]
  · rw [if_neg hid]
    rw [hgc, hrc, hgt, hrt]
    rfl

lemma sendTrade_poor {state : GameState} {payload : TradePayload}
    {fromPlayer toPlayer : Player}
    (hempty : state.pendingTrade = none)
    (hfrom : state.players.find? (fun q => q.id == payload.fromId) = some fromPlayer)
    (hto : state.players.find? (fun q => q.id == payload.toId) = some toPlayer)
    (hid : fromPlayer.id ≠ toPlayer.id)
    (hpoor : fromPlayer.funds < max 0 payload.giveCash ∨
      toPlayer.funds < max 0 payload.receiveCash) :
    sendTradeProposal state payload = (state, false) := by
  unfold sendTradeProposal
  rw [if_neg (by rw [hempty]; simp), hfrom, hto]
  dsimp only
  rw [if_neg (by simpa using hid)]
  split
  · rfl
  · rw [if_pos (by
      rw [Bool.or_eq_true, decide_eq_true_eq, decide_eq_true_eq]
      exact hpoor)]

lemma sendTrade_success {state : GameState} {payload : TradePayload}
    {fromPlayer toPlayer : Player}
    (hempty : state.pendingTrade = none)
    (hfrom : state.players.find? (fun q => q.id == payload.fromId) = some fromPlayer)
    (hto : state.players.find? (fun q => q.id == payload.toId) = some toPlayer)
    (hid : fromPlayer.id ≠ toPlayer.id)
    (hnonempty : ¬ (max 0 payload.giveCash == 0 &&
        max 0 payload.receiveCash == 0 &&
        ((uniqueArray payload.giveTiles).filter (fun tileId =>
          ((lookupProp state.propertyState tileId).bind (fun m => m.ownerId)) ==
            some fromPlayer.id)).isEmpty &&
        ((uniqueArray payload.receiveTiles).filter (fun tileId =>
          ((lookupProp state.propertyState tileId).bind (fun m => m.ownerId)) ==
            some toPlayer.id)).isEmpty) = true)
    (hgfunds : ¬ fromPlayer.funds < max 0 payload.giveCash)
    (hrfunds : ¬ toPlayer.funds < max 0 payload.receiveCash) :
    sendTradeProposal state payload =
      ({ state with
          pendingTrade := some
            { id := "trade-1", fromId := fromPlayer.id, toId := toPlayer.id,
              giveCash := max 0 payload.giveCash,
              receiveCash := max 0 payload.receiveCash,
              giveTiles := (uniqueArray payload.giveTiles).filter (fun tileId =>
                ((lookupProp state.propertyState tileId).bind (fun m => m.ownerId)) ==
                  some fromPlayer.id),
              receiveTiles := (uniqueArray payload.receiveTiles).filter (fun tileId =>
                ((lookupProp state.propertyState tileId).bind (fun m => m.ownerId)) ==
                  some toPlayer.id) }
          logs := addLog state.logs (fromPlayer.name ++ " proposed a trade to " ++
            toPlayer.name ++ ".") }, true) := by
  unfold sendTradeProposal
  rw [if_neg (by rw [hempty]; simp), hfrom, hto]
  dsimp only
  rw [if_neg (by simpa using hid)]
  rw [if_neg hnonempty]
  rw [if_neg (by
    rw [Bool.or_eq_true, decide_eq_true_eq, decide_eq_true_eq]
    rintro (h | h)
    · exact hgfunds h
    · exact hrfunds h)]

lemma find?_eq_getD_of_findIdx? {p : Player → Bool} {l : List Player} {i : Nat}
    (h : l.findIdx? p = some i) : l.find? p = some (l.getD i default) := by
  induction l generalizing i with
  | nil => simp [List.findIdx?] at h
  | cons x xs ih =>
    rw [findIdx?_cons_eq] at h
    rw [List.find?_cons]
    by_cases hx : p x
    · simp [hx] at h
      rw [hx, ← h]
      rfl
    · simp [hx] at h
      obtain ⟨j, hj, rfl⟩ := h
      have hxf : p x = false := by simpa using hx
      rw [hxf]
      simpa using ih hj

lemma claimPledge_success {B : Board} {state : GameState}
    {fromPlayerId tileId : String} {active : Player} {tile : TileDefinition}
    {meta : PropertyState}
    (hact : state.players.get? state.currentTurnIndex = some active)
    (hne : active.id ≠ fromPlayerId)
    (htile : B.tiles.find? (fun t => t.id == tileId) = some tile)
    (hmeta : lookupProp state.propertyState tileId = some meta)
    (howner : meta.ownerId = some fromPlayerId) :
    claimPledgeFrom B state fromPlayerId tileId =
      { state with
        propertyState := updateProp state.propertyState tileId
          (fun m => { m with ownerId := some active.id })
        logs := addLog state.logs (active.name ++ " received a pledged property.") } := by
  unfold claimPledgeFrom
  rw [hact]
  dsimp only
  rw [if_neg (by simpa using hne), htile]
  dsimp only
  rw [hmeta]
  dsimp only
  rw [if_neg (by rw [howner]; simp)]

lemma claimPledge_notowner {B : Board} {state : GameState}
    {fromPlayerId tileId : String} {active : Player}
    (hact : state.players.get? state.currentTurnIndex = some active)
    (hnotow : ((lookupProp state.propertyState tileId).map
      (fun m => m.ownerId)).getD none ≠ some fromPlayerId) :
    claimPledgeFrom B state fromPlayerId tileId = state := by
  unfold claimPledgeFrom
  rw [hact]
  dsimp only
  by_cases hself : active.id == fromPlayerId
  · rw [if_pos hself]
  · rw [if_neg hself]
    cases htile : B.tiles.find? (fun t => t.id == tileId) with
    | none => rfl
    | some tile =>
      dsimp only
      cases hmeta : lookupProp state.propertyState tileId with
      | none => rfl
      | some meta =>
        dsimp only
        rw [if_pos ?hcond]
        case hcond =>
          rw [hmeta] at hnotow
          simpa using hnotow

lemma claimPledge_self {B : Board} {state : GameState}
    {fromPlayerId tileId : String} {active : Player}
    (hact : state.players.get? state.currentTurnIndex = some active)
    (hself : active.id = fromPlayerId) :
    claimPledgeFrom B state fromPlayerId tileId = state := by
  unfold claimPledgeFrom
  rw [hact]
  dsimp only
  rw [if_pos (by simpa using hself)]

lemma resolveJail_forced_fee {currentIndex dieA dieB : Nat} {players : List Player}
    {ps : PropMap} {logs : List String}
    (hin : (players.getD currentIndex default).inJail = true)
    (hcard : (players.getD currentIndex default).hasGetOutOfJail = false)
    (hdice : ¬ dieA = dieB)
    (hturns : (players.getD currentIndex default).jailTurns + 1 ≥ MAX_JAIL_TURNS)
    (hidx : players.findIdx?
      (fun q => q.id == (players.getD currentIndex default).id) = some currentIndex)
    (hfunds : (players.getD currentIndex default).funds ≥ 200) :
    (resolveJailState currentIndex dieA dieB players ps logs).players =
        players.set currentIndex { players.getD currentIndex default with
          funds := (players.getD currentIndex default).funds - 200,
          inJail := false, jailTurns := 0 } ∧
      (resolveJailState currentIndex dieA dieB players ps logs).canMove = true ∧
      (resolveJailState currentIndex dieA dieB players ps logs).propertyState = ps ∧
      (resolveJailState currentIndex dieA dieB players ps logs).removedIndex = none := by
  have hlt : currentIndex < players.length := findIdx?_some_lt hidx
  unfold resolveJailState
  dsimp only
  rw [if_neg (by rw [hin]; simp)]
  rw [if_neg (by rw [hcard]; simp)]
  rw [if_neg (by simpa using hdice)]
  rw [if_pos (by simpa using hturns)]
  have hids : (players.set currentIndex { players.getD currentIndex default with
      jailTurns := (players.getD currentIndex default).jailTurns + 1 }).map Player.id
      = players.map Player.id := ids_set (by simp)
  have hidx2 : (players.set currentIndex { players.getD currentIndex default with
      jailTurns := (players.getD currentIndex default).jailTurns + 1 }).findIdx?
      (fun q => q.id == (players.getD currentIndex default).id) = some currentIndex := by
    rw [findIdx?_congr _ _ players (map_set_eq _ _ _ _ (by simp))]
    exact hidx
  have hgd : (players.set currentIndex { players.getD currentIndex default with
      jailTurns := (players.getD currentIndex default).jailTurns + 1 }).getD
      currentIndex default = { players.getD currentIndex default with
      jailTurns := (players.getD currentIndex default).jailTurns + 1 } :=
    getD_set_self hlt
  rw [payAmount_sufficient_bank (by omega) hidx2 (by rw [hgd]; simpa using hfunds)]
  dsimp only
  rw [if_neg (by simp)]
  dsimp only
  refine ⟨?_, rfl, rfl, rfl⟩
  rw [hgd, List.set_set]
  have hidx3 : (players.set currentIndex
      { { players.getD currentIndex default with
          jailTurns := (players.getD currentIndex default).jailTurns + 1 } with
        funds := ({ players.getD currentIndex default with
          jailTurns := (players.getD currentIndex default).jailTurns + 1 } : Player).funds
          - 200 }).findIdx?
      (fun q => q.id == (players.getD currentIndex default).id) = some currentIndex := by
    rw [findIdx?_congr _ _ players (map_set_eq _ _ _ _ (by simp))]
    exact hidx
  rw [updateFirstById_set_form _ hidx3, getD_set_self hlt, List.set_set]

lemma leaveJail_fee {state : GameState} {playerId : String} {idx : Nat}
    (hidx : state.players.findIdx? (fun p => p.id == playerId) = some idx)
    (hin : (state.players.getD idx default).inJail = true)
    (hfunds : (state.players.getD idx default).funds ≥ 200) :
    leaveJailByPayment state playerId =
      { state with
        players := state.players.set idx { state.players.getD idx default with
          funds := (state.players.getD idx default).funds - 200,
          inJail := false, jailTurns := 0 }
        logs := addLog state.logs ((state.players.getD idx default).name ++
          " paid to exit city hall.") } := by
  have hlt : idx < state.players.length := findIdx?_some_lt hidx
  have hpid : (state.players.getD idx default).id = playerId := by
    simpa using findIdx?_some_pred hidx
  unfold leaveJailByPayment
  dsimp only
  rw [hidx]
  dsimp only
  rw [if_neg (by rw [hin]; simp)]
  have hidx2 : state.players.findIdx?
      (fun q => q.id == (state.players.getD idx default).id) = some idx := by
    rw [hpid]
    exact hidx
  rw [payAmount_sufficient_bank (by omega) hidx2 hfunds]
  dsimp only
  rw [if_neg (by simp)]
  have hidx3 : (state.players.set idx { state.players.getD idx default with
      funds := (state.players.getD idx default).funds - 200 }).findIdx?
      (fun q => q.id == (state.players.getD idx default).id) = some idx := by
    rw [findIdx?_congr _ _ state.players (map_set_eq _ _ _ _ (by simp))]
    exact hidx2
  rw [updateFirstById_set_form _ hidx3, getD_set_self hlt, List.set_set]

lemma finishRoll_summary {state : GameState} {dieA dieB : Nat} {L : LandingLocals}
    (hpa : L.pendingAction = none) (h1 : L.players.length ≤ 1) :
    (finishRoll state dieA dieB L).phase = GamePhase.summary ∧
      (finishRoll state dieA dieB L).winnerId = computeWinnerId L.players := by
  unfold finishRoll
  rw [hpa]
  dsimp only
  rw [if_pos h1]
  exact ⟨rfl, rfl⟩

lemma rollEarlyReturn_phase_winner {state : GameState} {players : List Player}
    {ps : PropMap} {logs : List String} {dieA dieB nextIndex : Nat} :
    (rollEarlyReturn state players ps logs dieA dieB nextIndex).phase = state.phase ∧
      (rollEarlyReturn state players ps logs dieA dieB nextIndex).winnerId =
        computeWinnerId players :=
  ⟨rfl, rfl⟩

lemma leaveJail_phase_winner {state : GameState} {playerId : String} :
    (leaveJailByPayment state playerId).phase = state.phase ∧
      (leaveJailByPayment state playerId).winnerId = state.winnerId := by
  unfold leaveJailByPayment
  dsimp only
  repeat' split
  all_goals exact ⟨rfl, rfl⟩

lemma rollDiceAndResolve_guard {B : Board} {state : GameState}
    {dieA dieB luckA luckB : Nat}
    (h : state.phase ≠ GamePhase.rolling ∨ state.players = [] ∨
      state.pendingAction ≠ none) :
    rollDiceAndResolve B state dieA dieB luckA luckB = state := by
  unfold rollDiceAndResolve
  rw [if_pos ?hcond]
  case hcond =>
    rcases h with h | h | h
    · rw [Bool.or_eq_true, Bool.or_eq_true]
      refine Or.inl (Or.inl ?_)
      revert h
      cases state.phase <;> intro h
      case rolling => exact absurd rfl h
      all_goals rfl
    · simp [h]
    · cases hpa : state.pendingAction with
      | none => exact absurd hpa h
      | some pa => simp [hpa]

lemma moveStep_spec (B : Board) (players : List Player) (currentIndex : Nat)
    (diceTotal : Nat) (logs : List String) (h0 : 0 < diceTotal) :
    (moveStep B players currentIndex diceTotal logs).players =
        players.set currentIndex { players.getD currentIndex default with
          funds := (players.getD currentIndex default).funds +
            (if normalizePosition B
                (((players.getD currentIndex default).position : Int) + (diceTotal : Int)) <
                (players.getD currentIndex default).position
              then PASS_START_BONUS else 0),
          position := normalizePosition B
            (((players.getD currentIndex default).position : Int) + (diceTotal : Int)) } ∧
      (moveStep B players currentIndex diceTotal logs).passedStart =
        decide (normalizePosition B
            (((players.getD currentIndex default).position : Int) + (diceTotal : Int)) <
          (players.getD currentIndex default).position) := by
  unfold moveStep applyPassStartBonus
  dsimp only
  rw [decide_eq_true h0]
  by_cases hwrap : normalizePosition B
      (((players.getD currentIndex default).position : Int) + (diceTotal : Int)) <
      (players.getD currentIndex default).position
  · rw [if_pos (by rw [decide_eq_true hwrap]; simp), if_pos hwrap,
      decide_eq_true hwrap]
    exact ⟨rfl, rfl⟩
  · rw [if_neg (by rw [decide_eq_false hwrap]; simp), if_neg hwrap,
      decide_eq_false hwrap]
    refine ⟨?_, rfl⟩
    rw [Int.add_zero]

lemma calculateRent_railway {B : Board} {tile : TileDefinition} {playerRoll : Nat}
    {ps : PropMap} {ownerId : String} {meta : PropertyState}
    (hid : tile.id ≠ "")
    (hty : tile.type = TileType.railway)
    (hmeta : lookupProp ps tile.id = some meta)
    (hcount : 1 ≤ countOwnedInGroup B ownerId tile ps) :
    calculateRent B tile playerRoll ps ownerId =
      25 * (countOwnedInGroup B ownerId tile ps : Int) := by
  unfold calculateRent
  rw [if_neg (by simpa using hid), hmeta]
  dsimp only
  rw [if_pos (by rw [hty]; rfl)]
  have : max 1 (countOwnedInGroup B ownerId tile ps) =
      countOwnedInGroup B ownerId tile ps := by omega
  rw [this]

lemma calculateRent_utility {B : Board} {tile : TileDefinition} {playerRoll : Nat}
    {ps : PropMap} {ownerId : String} {meta : PropertyState}
    (hid : tile.id ≠ "")
    (hty : tile.type = TileType.utility)
    (hmeta : lookupProp ps tile.id = some meta) :
    calculateRent B tile playerRoll ps ownerId =
      (playerRoll : Int) *
        (if countOwnedInGroup B ownerId tile ps ≥ 2 then 10 else 4) := by
  unfold calculateRent
  rw [if_neg (by simpa using hid), hmeta]
  dsimp only
  rw [if_neg (by rw [hty]; decide), if_pos (by rw [hty]; rfl)]

lemma calculateRent_developed {B : Board} {tile : TileDefinition} {playerRoll : Nat}
    {ps : PropMap} {ownerId : String} {meta : PropertyState}
    (hid : tile.id ≠ "")
    (hty : tile.type = TileType.property)
    (hmeta : lookupProp ps tile.id = some meta)
    (hhouses : 0 < meta.houses)
    (hlen : meta.houses ≤ tile.rentLevels.length) :
    calculateRent B tile playerRoll ps ownerId =
      tile.rentLevels.getD (meta.houses - 1) 0 := by
  unfold calculateRent
  rw [if_neg (by simpa using hid), hmeta]
  dsimp only
  rw [if_neg (by rw [hty]; decide), if_neg (by rw [hty]; decide)]
  have hlen0 : tile.rentLevels.length ≠ 0 := by omega
  rw [if_pos (by
    rw [Bool.and_eq_true]
    exact ⟨decide_eq_true hhouses, by simpa using hlen0⟩)]
  have hmin : min meta.houses tile.rentLevels.length = meta.houses := by omega
  rw [hmin]
  have hidx : meta.houses - 1 < tile.rentLevels.length := by omega
  rw [List.getD_eq_getElem?_getD, List.getD_eq_getElem?_getD,
    List.getElem?_eq_getElem hidx]
  rfl

lemma calculateRent_fullset {B : Board} {tile : TileDefinition} {playerRoll : Nat}
    {ps : PropMap} {ownerId : String} {meta : PropertyState} {r : Int}
    (hid : tile.id ≠ "")
    (hty : tile.type = TileType.property)
    (hmeta : lookupProp ps tile.id = some meta)
    (hhouses : meta.houses = 0)
    (hrent : tile.rent = some r)
    (hfull : ownsFullSet B ownerId tile ps = true) :
    calculateRent B tile playerRoll ps ownerId = r * 2 := by
  unfold calculateRent
  rw [if_neg (by simpa using hid), hmeta]
  dsimp only
  rw [if_neg (by rw [hty]; decide), if_neg (by rw [hty]; decide)]
  rw [if_neg (by rw [hhouses]; simp), if_pos hfull, hrent]

lemma calculateRent_base {B : Board} {tile : TileDefinition} {playerRoll : Nat}
    {ps : PropMap} {ownerId : String} {meta : PropertyState} {r : Int}
    (hid : tile.id ≠ "")
    (hty : tile.type = TileType.property)
    (hmeta : lookupProp ps tile.id = some meta)
    (hhouses : meta.houses = 0)
    (hrent : tile.rent = some r)
    (hfull : ownsFullSet B ownerId tile ps = false) :
    calculateRent B tile playerRoll ps ownerId = r := by
  unfold calculateRent
  rw [if_neg (by simpa using hid), hmeta]
  dsimp only
  rw [if_neg (by rw [hty]; decide), if_neg (by rw [hty]; decide)]
  rw [if_neg (by rw [hhouses]; simp), if_neg (by rw [hfull]; simp), hrent]

lemma resolveLanding_self {B : Board} {state : GameState}
    {dieA dieB luckA luckB : Nat} {L : LandingLocals} {tileState : PropertyState}
    (hpurch : isPurchasable (getActiveTile B (L.players.getD L.currentIndex default)).type = true)
    (hlook : lookupProp L.propertyState
      (getActiveTile B (L.players.getD L.currentIndex default)).id = some tileState)
    (howner : tileState.ownerId = some (L.players.getD L.currentIndex default).id) :
    resolveLanding B state dieA dieB luckA luckB L = Except.ok L := by
  unfold resolveLanding
  dsimp only
  rw [if_pos hpurch, hlook]
  dsimp only
  rw [howner]
  dsimp only
  rw [if_pos (by simp)]

lemma resolveLanding_mortgaged {B : Board} {state : GameState}
    {dieA dieB luckA luckB : Nat} {L : LandingLocals} {tileState : PropertyState}
    {oid : String}
    (hpurch : isPurchasable (getActiveTile B (L.players.getD L.currentIndex default)).type = true)
    (hlook : lookupProp L.propertyState
      (getActiveTile B (L.players.getD L.currentIndex default)).id = some tileState)
    (howner : tileState.ownerId = some oid)
    (hne : oid ≠ (L.players.getD L.currentIndex default).id)
    (hmort : tileState.mortgaged = true) :
    resolveLanding B state dieA dieB luckA luckB L = Except.ok { L with
      logs := addLog L.logs
        ((getActiveTile B (L.players.getD L.currentIndex default)).name ++
          " is mortgaged. No rent due.") } := by
  unfold resolveLanding
  dsimp only
  rw [if_pos hpurch, hlook]
  dsimp only
  rw [howner]
  dsimp only
  rw [if_neg (by simpa using hne), if_pos hmort]

lemma resolveLanding_rent {B : Board} {state : GameState}
    {dieA dieB luckA luckB : Nat} {L : LandingLocals} {tileState : PropertyState}
    {oid : String} {pi ri : Nat}
    (hpurch : isPurchasable (getActiveTile B (L.players.getD L.currentIndex default)).type = true)
    (hlook : lookupProp L.propertyState
      (getActiveTile B (L.players.getD L.currentIndex default)).id = some tileState)
    (howner : tileState.ownerId = some oid)
    (hne : oid ≠ (L.players.getD L.currentIndex default).id)
    (hmort : tileState.mortgaged = false)
    (hri : L.players.findIdx? (fun q => q.id == oid) = some ri)
    (hpi : L.players.findIdx?
      (fun q => q.id == (L.players.getD L.currentIndex default).id) = some pi)
    (hrentpos : 0 < calculateRent B (getActiveTile B (L.players.getD L.currentIndex default))
      (dieA + dieB) L.propertyState oid)
    (hfunds : (L.players.getD pi default).funds ≥
      calculateRent B (getActiveTile B (L.players.getD L.currentIndex default))
        (dieA + dieB) L.propertyState oid)
    (hneidx : ri ≠ pi) :
    resolveLanding B state dieA dieB luckA luckB L = Except.ok { L with
      players := (L.players.set pi { L.players.getD pi default with
          funds := (L.players.getD pi default).funds -
            calculateRent B (getActiveTile B (L.players.getD L.currentIndex default))
              (dieA + dieB) L.propertyState oid }).set ri
        { L.players.getD ri default with
          funds := (L.players.getD ri default).funds +
            calculateRent B (getActiveTile B (L.players.getD L.currentIndex default))
              (dieA + dieB) L.propertyState oid }
      logs := addLog L.logs
        ((L.players.getD L.currentIndex default).name ++ " owes rent to " ++
          (L.players.getD ri default).name ++ ".") } := by
  unfold resolveLanding
  dsimp only
  rw [if_pos hpurch, hlook]
  dsimp only
  rw [howner]
  dsimp only
  rw [if_neg (by simpa using hne), if_neg (by rw [hmort]; simp)]
  rw [find?_eq_getD_of_findIdx? hri]
  dsimp only
  have hpi2 : L.players.findIdx? (fun q =>
      q.id == (L.players.getD L.currentIndex default).id) = some pi := hpi
  rw [payAmount_sufficient_receiver hrentpos hpi2 hfunds hri hneidx]
  unfold applyPaymentRemoval
  rfl

/-- C1: payAmount is a no-op for non-positive amounts; with sufficient
funds it debits the payer by exactly the amount and credits the given
receiver by exactly the amount with no ownership change; otherwise the
receiver is credited only the payer's remaining funds, the payer is
zeroed, and bankruptcy is triggered for the payer with the receiver (or
the bank) as creditor; in particular paying 50 from a player with 20 to
a player with 0 removes the payer, credits the receiver exactly 20, and
transfers all of the payer's tiles to the receiver. -/
theorem payAmount_contract :
    (∀ (players : List Player) (ps : PropMap) (payerId : String)
      (receiverId : Option String) (amount : Int) (logs : List String),
      amount ≤ 0 →
      payAmount players ps payerId receiverId amount logs =
        { players := players, propertyState := ps, logs := logs,
          removedIndex := none, bankruptPlayerId := none }) ∧
    (∀ (players : List Player) (ps : PropMap) (payerId rid : String)
      (amount : Int) (logs : List String) (pi ri : Nat),
      0 < amount →
      players.findIdx? (fun q => q.id == payerId) = some pi →
      (players.getD pi default).funds ≥ amount →
      players.findIdx? (fun q => q.id == rid) = some ri →
      ri ≠ pi →
      payAmount players ps payerId (some rid) amount logs =
        { players := (players.set pi { players.getD pi default with
              funds := (players.getD pi default).funds - amount }).set ri
            { players.getD ri default with
              funds := (players.getD ri default).funds + amount },
          propertyState := ps, logs := logs,
          removedIndex := none, bankruptPlayerId := none }) ∧
    (∀ (players : List Player) (ps : PropMap) (payerId : String)
      (amount : Int) (logs : List String) (pi : Nat),
      0 < amount →
      players.findIdx? (fun q => q.id == payerId) = some pi →
      (players.getD pi default).funds ≥ amount →
      payAmount players ps payerId none amount logs =
        { players := players.set pi { players.getD pi default with
            funds := (players.getD pi default).funds - amount },
          propertyState := ps, logs := logs,
          removedIndex := none, bankruptPlayerId := none }) ∧
    (∀ (players : List Player) (ps : PropMap) (payerId rid : String)
      (amount : Int) (logs : List String) (pi ri : Nat),
      0 < amount →
      players.findIdx? (fun q => q.id == payerId) = some pi →
      0 ≤ (players.getD pi default).funds →
      (players.getD pi default).funds < amount →
      players.findIdx? (fun q => q.id == rid) = some ri →
      ri ≠ pi →
      payAmount players ps payerId (some rid) amount logs =
        handleBankruptcy
          ((players.set ri { players.getD ri default with
              funds := (players.getD ri default).funds +
                (players.getD pi default).funds }).set pi
            { players.getD pi default with funds := 0 })
          ps payerId (some rid) logs) ∧
    (∀ (players : List Player) (ps : PropMap) (payerId : String)
      (amount : Int) (logs : List String) (pi : Nat),
      0 < amount →
      players.findIdx? (fun q => q.id == payerId) = some pi →
      (players.getD pi default).funds < amount →
      payAmount players ps payerId none amount logs =
        handleBankruptcy
          (players.set pi { players.getD pi default with funds := 0 })
          ps payerId none logs) ∧
    payAmount c1Players c1Props "a" (some "b") 50 [] =
      { players := [mkPlayer "b" "Bob" 20 0],
        propertyState :=
          [("p1", { ownerId := some "b", houses := 0, mortgaged := false }),
           ("p2", { ownerId := some "b", houses := 2, mortgaged := true })],
        logs := ["Alice went bankrupt to Bob."],
        removedIndex := some 0, bankruptPlayerId := some "a" } := by
  refine ⟨?_, ?_, ?_, ?_, ?_, ?_⟩
  · intro players ps payerId receiverId amount logs h
    exact payAmount_noop h
  · intro players ps payerId rid amount logs pi ri hamt hpi hfunds hri hne
    exact payAmount_sufficient_receiver hamt hpi hfunds hri hne
  · intro players ps payerId amount logs pi hamt hpi hfunds
    exact payAmount_sufficient_bank hamt hpi hfunds
  · intro players ps payerId rid amount logs pi ri hamt hpi hfund0 hfunds hri hne
    exact payAmount_insufficient_receiver hamt hpi hfund0 hfunds hri hne
  · intro players ps payerId amount logs pi hamt hpi hfunds
    exact payAmount_insufficient_bank hamt hpi hfunds
  · rfl

/-- Closed instance of payAmount_contract: the insufficient-funds branch
applied to the concrete 20-versus-50 scenario. -/
theorem payAmount_contract_witness :
    (0 : Int) < 50 ∧
    payAmount c1Players c1Props "a" (some "b") 50 [] =
      handleBankruptcy
        ((c1Players.set 1 { c1Players.getD 1 default with
            funds := (c1Players.getD 1 default).funds +
              (c1Players.getD 0 default).funds }).set 0
          { c1Players.getD 0 default with funds := 0 })
        c1Props "a" (some "b") [] :=
  ⟨by decide,
    payAmount_contract.2.2.2.1 c1Players c1Props "a" "b" 50 [] 0 1
      (by decide) (by rfl) (by decide) (by decide) (by rfl) (by decide)⟩

/-- C3 counterexample: on a concrete jailed player with 1000 funds, both
the forced third-turn payment and the voluntary exit payment debit
exactly 200, so the two paths do not charge different amounts. -/
theorem jail_fine_counterexample :
    ((resolveJailState 0 1 2 [jailedAlice, mkPlayer "b" "Bob" 1500 0]
        [] []).players.getD 0 default).funds = 1000 - 200 ∧
    ((leaveJailByPayment c3State "a").players.getD 0 default).funds =
      1000 - 200 ∧
    ¬ (1000 - ((resolveJailState 0 1 2 [jailedAlice, mkPlayer "b" "Bob" 1500 0]
          [] []).players.getD 0 default).funds ≠
        1000 - ((leaveJailByPayment c3State "a").players.getD 0 default).funds) := by
  refine ⟨rfl, rfl, ?_⟩
  intro h
  exact h rfl

/-- C3 amended: both jail resolution paths charge the same fine of 200
(the source is internally consistent): the forced payment after the
third failed jail turn debits exactly 200 and releases the player, and
the voluntary pay-to-leave command debits exactly 200 and releases the
player. -/
theorem jail_fine_consistent :
    (∀ (currentIndex dieA dieB : Nat) (players : List Player) (ps : PropMap)
      (logs : List String),
      (players.getD currentIndex default).inJail = true →
      (players.getD currentIndex default).hasGetOutOfJail = false →
      ¬ dieA = dieB →
      (players.getD currentIndex default).jailTurns + 1 ≥ MAX_JAIL_TURNS →
      players.findIdx?
        (fun q => q.id == (players.getD currentIndex default).id) =
          some currentIndex →
      (players.getD currentIndex default).funds ≥ 200 →
      (resolveJailState currentIndex dieA dieB players ps logs).players =
          players.set currentIndex { players.getD currentIndex default with
            funds := (players.getD currentIndex default).funds - 200,
            inJail := false, jailTurns := 0 } ∧
        (resolveJailState currentIndex dieA dieB players ps logs).canMove = true ∧
        (resolveJailState currentIndex dieA dieB players ps logs).propertyState = ps ∧
        (resolveJailState currentIndex dieA dieB players ps logs).removedIndex = none) ∧
    (∀ (state : GameState) (playerId : String) (idx : Nat),
      state.players.findIdx? (fun p => p.id == playerId) = some idx →
      (state.players.getD idx default).inJail = true →
      (state.players.getD idx default).funds ≥ 200 →
      leaveJailByPayment state playerId =
        { state with
          players := state.players.set idx { state.players.getD idx default with
            funds := (state.players.getD idx default).funds - 200,
            inJail := false, jailTurns := 0 }
          logs := addLog state.logs ((state.players.getD idx default).name ++
            " paid to exit city hall.") }) := by
  constructor
  · intro currentIndex dieA dieB players ps logs hin hcard hdice hturns hidx hfunds
    exact resolveJail_forced_fee hin hcard hdice hturns hidx hfunds
  · intro state playerId idx hidx hin hfunds
    exact leaveJail_fee hidx hin hfunds

/-- Closed instance of jail_fine_consistent on the concrete jailed
player: both paths debit exactly 200. -/
theorem jail_fine_consistent_witness :
    (resolveJailState 0 1 2 [jailedAlice, mkPlayer "b" "Bob" 1500 0] [] []).players =
      [jailedAlice, mkPlayer "b" "Bob" 1500 0].set 0
        { [jailedAlice, mkPlayer "b" "Bob" 1500 0].getD 0 default with
          funds := ([jailedAlice, mkPlayer "b" "Bob" 1500 0].getD 0 default).funds
            - 200,
          inJail := false, jailTurns := 0 } ∧
    leaveJailByPayment c3State "a" =
      { c3State with
        players := c3State.players.set 0 { c3State.players.getD 0 default with
          funds := (c3State.players.getD 0 default).funds - 200,
          inJail := false, jailTurns := 0 }
        logs := addLog c3State.logs ((c3State.players.getD 0 default).name ++
          " paid to exit city hall.") } :=
  ⟨(jail_fine_consistent.1 0 1 2 [jailedAlice, mkPlayer "b" "Bob" 1500 0] [] []
      rfl rfl (by decide) (by decide) rfl (by decide)).1,
    jail_fine_consistent.2 c3State "a" 0 rfl rfl (by decide)⟩

/-- C5: for every roll that may move, the token advances by the dice
total modulo the board length and the pass-start bonus is credited
exactly once precisely when the destination index is numerically below
the origin; in particular a player at position 38 rolling 1 and 2 ends
at position 1 with the bonus credited exactly once. -/
theorem movement_pass_start_spec :
    (∀ (B : Board) (players : List Player) (currentIndex diceTotal : Nat)
      (logs : List String), 0 < diceTotal →
      (moveStep B players currentIndex diceTotal logs).players =
          players.set currentIndex { players.getD currentIndex default with
            funds := (players.getD currentIndex default).funds +
              (if normalizePosition B
                  (((players.getD currentIndex default).position : Int) +
                    (diceTotal : Int)) <
                  (players.getD currentIndex default).position
                then PASS_START_BONUS else 0),
            position := normalizePosition B
              (((players.getD currentIndex default).position : Int) +
                (diceTotal : Int)) } ∧
        (moveStep B players currentIndex diceTotal logs).passedStart =
          decide (normalizePosition B
              (((players.getD currentIndex default).position : Int) +
                (diceTotal : Int)) <
            (players.getD currentIndex default).position)) ∧
    (doRollInternal demoBoard c5State 1 2 1 2).players.map
      (fun p => (p.position, p.funds)) = [(1, 1700), (0, 1500)] ∧
    (doRollInternal demoBoard c5State 1 2 1 2).lastMovementPath = [39, 0, 1] := by
  refine ⟨?_, rfl, rfl⟩
  intro B players currentIndex diceTotal logs h0
  exact moveStep_spec B players currentIndex diceTotal logs h0

/-- Closed instance of movement_pass_start_spec: the movement step of
the concrete wrap-around scenario. -/
theorem movement_pass_start_spec_witness :
    (moveStep demoBoard c5State.players 0 3 []).players =
        c5State.players.set 0 { c5State.players.getD 0 default with
          funds := (c5State.players.getD 0 default).funds +
            (if normalizePosition demoBoard
                (((c5State.players.getD 0 default).position : Int) + (3 : Int)) <
                (c5State.players.getD 0 default).position
              then PASS_START_BONUS else 0),
          position := normalizePosition demoBoard
            (((c5State.players.getD 0 default).position : Int) + (3 : Int)) } ∧
      (moveStep demoBoard c5State.players 0 3 []).passedStart =
        decide (normalizePosition demoBoard
            (((c5State.players.getD 0 default).position : Int) + (3 : Int)) <
          (c5State.players.getD 0 default).position) :=
  movement_pass_start_spec.1 demoBoard c5State.players 0 3 [] (by decide)

/-- C6: the roll command leaves the state completely unchanged whenever
a pending action exists, the phase is not rolling, or the player list is
empty. -/
theorem roll_rejected_noop :
    ∀ (B : Board) (state : GameState) (dieA dieB luckA luckB : Nat),
      state.pendingAction ≠ none ∨ state.phase ≠ GamePhase.rolling ∨
        state.players = [] →
      rollDiceAndResolve B state dieA dieB luckA luckB = state := by
  intro B state dieA dieB luckA luckB h
  apply rollDiceAndResolve_guard
  rcases h with h | h | h
  · exact Or.inr (Or.inr h)
  · exact Or.inl h
  · exact Or.inr (Or.inl h)

/-- Closed instance of roll_rejected_noop: rolling while a purchase is
pending returns the state unchanged. -/
theorem roll_rejected_noop_witness :
    rollDiceAndResolve demoBoard c6State 3 4 1 2 = c6State :=
  roll_rejected_noop demoBoard c6State 3 4 1 2 (Or.inl (by decide))

/-- C4: rent on a railway is 25 times the count of railways the owner
holds; on a utility it is the dice total times 4 or 10 by count owned;
on a developed property it is the rent tier for the development level;
on an undeveloped property it is double the base rent with the full
colour group and the base rent otherwise; and landing on a mortgaged
tile or a tile the lander owns moves no funds. -/
theorem rent_computation_spec :
    (∀ (B : Board) (tile : TileDefinition) (playerRoll : Nat) (ps : PropMap)
      (ownerId : String) (meta : PropertyState),
      tile.id ≠ "" → tile.type = TileType.railway →
      lookupProp ps tile.id = some meta →
      1 ≤ countOwnedInGroup B ownerId tile ps →
      calculateRent B tile playerRoll ps ownerId =
        25 * (countOwnedInGroup B ownerId tile ps : Int)) ∧
    (∀ (B : Board) (tile : TileDefinition) (playerRoll : Nat) (ps : PropMap)
      (ownerId : String) (meta : PropertyState),
      tile.id ≠ "" → tile.type = TileType.utility →
      lookupProp ps tile.id = some meta →
      calculateRent B tile playerRoll ps ownerId =
        (playerRoll : Int) *
          (if countOwnedInGroup B ownerId tile ps ≥ 2 then 10 else 4)) ∧
    (∀ (B : Board) (tile : TileDefinition) (playerRoll : Nat) (ps : PropMap)
      (ownerId : String) (meta : PropertyState),
      tile.id ≠ "" → tile.type = TileType.property →
      lookupProp ps tile.id = some meta →
      0 < meta.houses → meta.houses ≤ tile.rentLevels.length →
      calculateRent B tile playerRoll ps ownerId =
        tile.rentLevels.getD (meta.houses - 1) 0) ∧
    (∀ (B : Board) (tile : TileDefinition) (playerRoll : Nat) (ps : PropMap)
      (ownerId : String) (meta : PropertyState) (r : Int),
      tile.id ≠ "" → tile.type = TileType.property →
      lookupProp ps tile.id = some meta →
      meta.houses = 0 → tile.rent = some r →
      ownsFullSet B ownerId tile ps = true →
      calculateRent B tile playerRoll ps ownerId = r * 2) ∧
    (∀ (B : Board) (tile : TileDefinition) (playerRoll : Nat) (ps : PropMap)
      (ownerId : String) (meta : PropertyState) (r : Int),
      tile.id ≠ "" → tile.type = TileType.property →
      lookupProp ps tile.id = some meta →
      meta.houses = 0 → tile.rent = some r →
      ownsFullSet B ownerId tile ps = false →
      calculateRent B tile playerRoll ps ownerId = r) ∧
    (∀ (B : Board) (state : GameState) (dieA dieB luckA luckB : Nat)
      (L : LandingLocals) (tileState : PropertyState) (oid : String),
      isPurchasable (getActiveTile B (L.players.getD L.currentIndex default)).type
          = true →
      lookupProp L.propertyState
        (getActiveTile B (L.players.getD L.currentIndex default)).id =
          some tileState →
      tileState.ownerId = some oid →
      oid ≠ (L.players.getD L.currentIndex default).id →
      tileState.mortgaged = true →
      resolveLanding B state dieA dieB luckA luckB L = Except.ok { L with
        logs := addLog L.logs
          ((getActiveTile B (L.players.getD L.currentIndex default)).name ++
            " is mortgaged. No rent due.") }) ∧
    (∀ (B : Board) (state : GameState) (dieA dieB luckA luckB : Nat)
      (L : LandingLocals) (tileState : PropertyState),
      isPurchasable (getActiveTile B (L.players.getD L.currentIndex default)).type
          = true →
      lookupProp L.propertyState
        (getActiveTile B (L.players.getD L.currentIndex default)).id =
          some tileState →
      tileState.ownerId = some (L.players.getD L.currentIndex default).id →
      resolveLanding B state dieA dieB luckA luckB L = Except.ok L) := by
  refine ⟨?_, ?_, ?_, ?_, ?_, ?_, ?_⟩
  · intro B tile playerRoll ps ownerId meta hid hty hmeta hcount
    exact calculateRent_railway hid hty hmeta hcount
  · intro B tile playerRoll ps ownerId meta hid hty hmeta
    exact calculateRent_utility hid hty hmeta
  · intro B tile playerRoll ps ownerId meta hid hty hmeta hh hl
    exact calculateRent_developed hid hty hmeta hh hl
  · intro B tile playerRoll ps ownerId meta r hid hty hmeta hh hr hf
    exact calculateRent_fullset hid hty hmeta hh hr hf
  · intro B tile playerRoll ps ownerId meta r hid hty hmeta hh hr hf
    exact calculateRent_base hid hty hmeta hh hr hf
  · intro B state dieA dieB luckA luckB L tileState oid hp hl ho hne hm
    exact resolveLanding_mortgaged hp hl ho hne hm
  · intro B state dieA dieB luckA luckB L tileState hp hl ho
    exact resolveLanding_self hp hl ho

/-- Closed instance of rent_computation_spec: rent on the first railway
with one railway owned evaluates to 25. -/
theorem rent_computation_spec_witness :
    calculateRent demoBoard (demoTiles.getD 4 default) 7 c4Props "b" =
      25 * (countOwnedInGroup demoBoard "b" (demoTiles.getD 4 default) c4Props
        : Int) :=
  rent_computation_spec.1 demoBoard (demoTiles.getD 4 default) 7 c4Props "b"
    { ownerId := some "b", houses := 0, mortgaged := false }
    (by decide) (by rfl) (by rfl) (by decide)

/-- C8 counterexample: the proposal listing an unowned give-tile is not
rejected; it is accepted with the unowned tile silently filtered out of
the give list. -/
theorem trade_propose_filter_counterexample :
    (sendTradeProposal c8State c8Payload).snd = true ∧
    ((sendTradeProposal c8State c8Payload).fst.pendingTrade.map
      (fun t => (t.giveTiles, t.receiveTiles))) = some ([], ["p1"]) :=
  ⟨rfl, rfl⟩

/-- C8 amended: a proposal is rejected with no state change when one is
already outstanding, a party is unknown, everything offered is empty
after filtering tiles to those owned by their stated offerer, or a
party lacks the cash it offers; otherwise deduplicated tile lists are
filtered to owned tiles and the proposal is stored. -/
theorem trade_propose_spec :
    (∀ (state : GameState) (payload : TradePayload),
      state.pendingTrade.isSome →
      sendTradeProposal state payload = (state, false)) ∧
    (∀ (state : GameState) (payload : TradePayload),
      state.pendingTrade = none →
      (state.players.find? (fun q => q.id == payload.fromId) = none ∨
        state.players.find? (fun q => q.id == payload.toId) = none) →
      sendTradeProposal state payload = (state, false)) ∧
    (∀ (state : GameState) (payload : TradePayload)
      (fromPlayer toPlayer : Player),
      state.pendingTrade = none →
      state.players.find? (fun q => q.id == payload.fromId) = some fromPlayer →
      state.players.find? (fun q => q.id == payload.toId) = some toPlayer →
      max 0 payload.giveCash = 0 →
      max 0 payload.receiveCash = 0 →
      (uniqueArray payload.giveTiles).filter (fun tileId =>
        ((lookupProp state.propertyState tileId).bind (fun m => m.ownerId)) ==
          some fromPlayer.id) = [] →
      (uniqueArray payload.receiveTiles).filter (fun tileId =>
        ((lookupProp state.propertyState tileId).bind (fun m => m.ownerId)) ==
          some toPlayer.id) = [] →
      sendTradeProposal state payload = (state, false)) ∧
    (∀ (state : GameState) (payload : TradePayload)
      (fromPlayer toPlayer : Player),
      state.pendingTrade = none →
      state.players.find? (fun q => q.id == payload.fromId) = some fromPlayer →
      state.players.find? (fun q => q.id == payload.toId) = some toPlayer →
      fromPlayer.id ≠ toPlayer.id →
      (fromPlayer.funds < max 0 payload.giveCash ∨
        toPlayer.funds < max 0 payload.receiveCash) →
      sendTradeProposal state payload = (state, false)) ∧
    (∀ (state : GameState) (payload : TradePayload)
      (fromPlayer toPlayer : Player),
      state.pendingTrade = none →
      state.players.find? (fun q => q.id == payload.fromId) = some fromPlayer →
      state.players.find? (fun q => q.id == payload.toId) = some toPlayer →
      fromPlayer.id ≠ toPlayer.id →
      ¬ (max 0 payload.giveCash == 0 &&
          max 0 payload.receiveCash == 0 &&
          ((uniqueArray payload.giveTiles).filter (fun tileId =>
            ((lookupProp state.propertyState tileId).bind (fun m => m.ownerId)) ==
              some fromPlayer.id)).isEmpty &&
          ((uniqueArray payload.receiveTiles).filter (fun tileId =>
            ((lookupProp state.propertyState tileId).bind (fun m => m.ownerId)) ==
              some toPlayer.id)).isEmpty) = true →
      ¬ fromPlayer.funds < max 0 payload.giveCash →
      ¬ toPlayer.funds < max 0 payload.receiveCash →
      sendTradeProposal state payload =
        ({ state with
            pendingTrade := some
              { id := "trade-1", fromId := fromPlayer.id, toId := toPlayer.id,
                giveCash := max 0 payload.giveCash,
                receiveCash := max 0 payload.receiveCash,
                giveTiles := (uniqueArray payload.giveTiles).filter (fun tileId =>
                  ((lookupProp state.propertyState tileId).bind
                    (fun m => m.ownerId)) == some fromPlayer.id),
                receiveTiles := (uniqueArray payload.receiveTiles).filter
                  (fun tileId =>
                    ((lookupProp state.propertyState tileId).bind
                      (fun m => m.ownerId)) == some toPlayer.id) }
            logs := addLog state.logs (fromPlayer.name ++
              " proposed a trade to " ++ toPlayer.name ++ ".") }, true)) := by
  refine ⟨?_, ?_, ?_, ?_, ?_⟩
  · intro state payload h
    exact sendTrade_outstanding h
  · intro state payload h1 h2
    exact sendTrade_unknown h1 h2
  · intro state payload fromPlayer toPlayer h1 h2 h3 h4 h5 h6 h7
    exact sendTrade_empty h1 h2 h3 h4 h5 h6 h7
  · intro state payload fromPlayer toPlayer h1 h2 h3 h4 h5
    exact sendTrade_poor h1 h2 h3 h4 h5
  · intro state payload fromPlayer toPlayer h1 h2 h3 h4 h5 h6 h7
    exact sendTrade_success h1 h2 h3 h4 h5 h6 h7

/-- Closed instance of trade_propose_spec: proposing while a trade is
already outstanding changes nothing. -/
theorem trade_propose_spec_witness :
    sendTradeProposal c7State c8Payload = (c7State, false) :=
  trade_propose_spec.1 c7State c8Payload (by decide)

/-- C10: when the named tile is owned by the named player and the
active player is someone else, claiming a pledge reassigns only that
tile to the active player and appends one log line, preserving every
other field of the state; per key, only the claimed tile changes and
only in its owner field; when the tile is not owned by the named player
or the active player is that player, the state is unchanged. -/
theorem pledge_frame_spec :
    (∀ (B : Board) (state : GameState) (fromPlayerId tileId : String)
      (active : Player) (tile : TileDefinition) (meta : PropertyState),
      state.players.get? state.currentTurnIndex = some active →
      active.id ≠ fromPlayerId →
      B.tiles.find? (fun t => t.id == tileId) = some tile →
      lookupProp state.propertyState tileId = some meta →
      meta.ownerId = some fromPlayerId →
      claimPledgeFrom B state fromPlayerId tileId =
        { state with
          propertyState := updateProp state.propertyState tileId
            (fun m => { m with ownerId := some active.id })
          logs := addLog state.logs
            (active.name ++ " received a pledged property.") } ∧
      (∀ k, lookupProp (claimPledgeFrom B state fromPlayerId tileId).propertyState k
          = if k = tileId then
              some { meta with ownerId := some active.id }
            else lookupProp state.propertyState k)) ∧
    (∀ (B : Board) (state : GameState) (fromPlayerId tileId : String)
      (active : Player),
      state.players.get? state.currentTurnIndex = some active →
      ((lookupProp state.propertyState tileId).map
        (fun m => m.ownerId)).getD none ≠ some fromPlayerId →
      claimPledgeFrom B state fromPlayerId tileId = state) ∧
    (∀ (B : Board) (state : GameState) (fromPlayerId tileId : String)
      (active : Player),
      state.players.get? state.currentTurnIndex = some active →
      active.id = fromPlayerId →
      claimPledgeFrom B state fromPlayerId tileId = state) := by
  refine ⟨?_, ?_, ?_⟩
  · intro B state fromPlayerId tileId active tile meta hact hne htile hmeta howner
    have hmain := claimPledge_success hact hne htile hmeta howner
    refine ⟨hmain, ?_⟩
    intro k
    rw [hmain]
    dsimp only
    rw [lookupProp_updateProp]
    by_cases hk : k = tileId
    · rw [if_pos hk, if_pos hk, hk, hmeta]
      rfl
    · rw [if_neg hk, if_neg hk]
  · intro B state fromPlayerId tileId active hact hnot
    exact claimPledge_notowner hact hnot
  · intro B state fromPlayerId tileId active hact hself
    exact claimPledge_self hact hself

/-- Closed instance of pledge_frame_spec: Alice claims the P1 tile
pledged by Bob; only that entry changes and one log line is added. -/
theorem pledge_frame_spec_witness :
    claimPledgeFrom demoBoard c10State "b" "p1" =
      { c10State with
        propertyState := updateProp c10State.propertyState "p1"
          (fun m => { m with ownerId := some (mkPlayer "a" "Alice" 1500 0).id })
        logs := addLog c10State.logs
          ((mkPlayer "a" "Alice" 1500 0).name ++ " received a pledged property.") } :=
  (pledge_frame_spec.1 demoBoard c10State "b" "p1" (mkPlayer "a" "Alice" 1500 0)
    (demoTiles.getD 1 default)
    { ownerId := some "b", houses := 0, mortgaged := false }
    (by rfl) (by decide) (by rfl) (by rfl) (by rfl)).1

/-- C9 counterexample: a rent bankruptcy discovered mid-roll leaves one
player and sets the winner id but leaves the phase unchanged at
rolling, and a jail-payment bankruptcy leaves one player without
setting either the phase or the winner id. -/
theorem winner_phase_counterexample :
    (doRollInternal demoBoard c9bState 1 1 1 2).players.map (fun p => p.id) =
        ["b"] ∧
    (doRollInternal demoBoard c9bState 1 1 1 2).winnerId = some "b" ∧
    (doRollInternal demoBoard c9bState 1 1 1 2).phase ≠ GamePhase.summary ∧
    (leaveJailByPayment c9State "a").players.length = 1 ∧
    (leaveJailByPayment c9State "a").phase ≠ GamePhase.summary ∧
    (leaveJailByPayment c9State "a").winnerId = none :=
  ⟨rfl, rfl, by decide, rfl, by decide, rfl⟩

/-- C9 amended: only the normal completion of a roll switches the phase
to summary (and records the winner) when at most one player remains;
the early-return roll paths record the winner id but keep the previous
phase, and the jail-payment command changes neither the phase nor the
winner id. -/
theorem winner_summary_spec :
    (∀ (state : GameState) (dieA dieB : Nat) (L : LandingLocals),
      L.pendingAction = none → L.players.length ≤ 1 →
      (finishRoll state dieA dieB L).phase = GamePhase.summary ∧
        (finishRoll state dieA dieB L).winnerId = computeWinnerId L.players) ∧
    (∀ (state : GameState) (players : List Player) (ps : PropMap)
      (logs : List String) (dieA dieB nextIndex : Nat),
      (rollEarlyReturn state players ps logs dieA dieB nextIndex).phase =
          state.phase ∧
        (rollEarlyReturn state players ps logs dieA dieB nextIndex).winnerId =
          computeWinnerId players) ∧
    (∀ (state : GameState) (playerId : String),
      (leaveJailByPayment state playerId).phase = state.phase ∧
        (leaveJailByPayment state playerId).winnerId = state.winnerId) := by
  refine ⟨?_, ?_, ?_⟩
  · intro state dieA dieB L hpa h1
    exact finishRoll_summary hpa h1
  · intro state players ps logs dieA dieB nextIndex
    exact rollEarlyReturn_phase_winner
  · intro state playerId
    exact leaveJail_phase_winner

/-- Closed instance of winner_summary_spec: finishing a roll with one
player left enters the summary phase with that player as winner. -/
theorem winner_summary_spec_witness :
    (finishRoll c9State 1 2 c9L).phase = GamePhase.summary ∧
      (finishRoll c9State 1 2 c9L).winnerId = computeWinnerId c9L.players :=
  winner_summary_spec.1 c9State 1 2 c9L rfl (by decide)

/-- C7: accepting a pending trade re-validates funds and tile ownership
at acceptance time; on a funds shortfall or an ownership drift the
proposal is cleared with a log entry and no funds or ownership change,
and on success the cash deltas and every listed tile transfer are
applied in one transition, with each property entry receiving exactly
the owner dictated by the list it appears in and all others unchanged. -/
theorem trade_accept_atomic :
    (∀ (state : GameState) (trade : TradeProposal) (fi ti : Nat),
      state.pendingTrade = some trade →
      state.players.findIdx? (fun q => q.id == trade.fromId) = some fi →
      state.players.findIdx? (fun q => q.id == trade.toId) = some ti →
      ((state.players.getD fi default).funds < trade.giveCash ∨
        (state.players.getD ti default).funds < trade.receiveCash) →
      acceptTradeProposal state =
        ({ state with
            pendingTrade := none
            logs := addLog state.logs ("Trade between " ++
              (state.players.getD fi default).name ++ " and " ++
              (state.players.getD ti default).name ++
              " failed due to insufficient funds.") }, false)) ∧
    (∀ (state : GameState) (trade : TradeProposal) (fi ti : Nat),
      state.pendingTrade = some trade →
      state.players.findIdx? (fun q => q.id == trade.fromId) = some fi →
      state.players.findIdx? (fun q => q.id == trade.toId) = some ti →
      ¬ (state.players.getD fi default).funds < trade.giveCash →
      ¬ (state.players.getD ti default).funds < trade.receiveCash →
      (validateTiles state.propertyState trade.giveTiles
          (state.players.getD fi default).id = false ∨
        validateTiles state.propertyState trade.receiveTiles
          (state.players.getD ti default).id = false) →
      acceptTradeProposal state =
        ({ state with
            pendingTrade := none
            logs := addLog state.logs ("Trade between " ++
              (state.players.getD fi default).name ++ " and " ++
              (state.players.getD ti default).name ++
              " failed because ownership changed.") }, false)) ∧
    (∀ (state : GameState) (trade : TradeProposal) (fi ti : Nat),
      state.pendingTrade = some trade →
      state.players.findIdx? (fun q => q.id == trade.fromId) = some fi →
      state.players.findIdx? (fun q => q.id == trade.toId) = some ti →
      ¬ (state.players.getD fi default).funds < trade.giveCash →
      ¬ (state.players.getD ti default).funds < trade.receiveCash →
      validateTiles state.propertyState trade.giveTiles
        (state.players.getD fi default).id = true →
      validateTiles state.propertyState trade.receiveTiles
        (state.players.getD ti default).id = true →
      fi ≠ ti →
      (state.players.getD fi default).id ≠ (state.players.getD ti default).id →
      acceptTradeProposal state =
        ({ state with
            players := (state.players.set fi { state.players.getD fi default with
                funds := (state.players.getD fi default).funds - trade.giveCash +
                  trade.receiveCash }).set ti { state.players.getD ti default with
                funds := (state.players.getD ti default).funds + trade.giveCash -
                  trade.receiveCash }
            propertyState := trade.receiveTiles.foldl (fun acc tileId =>
                moveTile acc tileId (state.players.getD ti default).id
                  (state.players.getD fi default).id)
              (trade.giveTiles.foldl (fun acc tileId =>
                moveTile acc tileId (state.players.getD fi default).id
                  (state.players.getD ti default).id) state.propertyState)
            pendingTrade := none
            logs := addLog state.logs ((state.players.getD fi default).name ++
              " and " ++ (state.players.getD ti default).name ++
              " completed a trade.") }, true) ∧
      (∀ k meta, lookupProp state.propertyState k = some meta →
        lookupProp (acceptTradeProposal state).fst.propertyState k =
          some (if k ∈ trade.receiveTiles then
              { meta with ownerId := some (state.players.getD fi default).id }
            else if k ∈ trade.giveTiles then
              { meta with ownerId := some (state.players.getD ti default).id }
            else meta))) := by
  refine ⟨?_, ?_, ?_⟩
  · intro state trade fi ti htr hf ht hbad
    exact acceptTrade_insufficient htr hf ht hbad
  · intro state trade fi ti htr hf ht hg hr hbad
    exact acceptTrade_stale htr hf ht hg hr hbad
  · intro state trade fi ti htr hf ht hg hr hvg hvr hne hpid
    have hmain := acceptTrade_success htr hf ht hg hr hvg hvr hne
    refine ⟨hmain, ?_⟩
    intro k meta hmeta
    rw [hmain]
    dsimp only
    rw [lookupProp_foldl_moveTile _ _ _ _ (fun h => hpid h.symm) k,
      lookupProp_foldl_moveTile _ _ _ _ hpid k, hmeta]
    simp only [Option.map_some']
    by_cases hkr : k ∈ trade.receiveTiles
    · have how : meta.ownerId = some (state.players.getD ti default).id := by
        have hv := validateTiles_mem hvr hkr
        rw [hmeta] at hv
        simpa using hv
      have hgneg : ¬ (k ∈ trade.giveTiles ∧
          meta.ownerId = some (state.players.getD fi default).id) := by
        rintro ⟨hc1, hc2⟩
        rw [how] at hc2
        exact hpid (Option.some.inj hc2).symm
      rw [if_neg (c := k ∈ trade.giveTiles ∧
        meta.ownerId = some (state.players.getD fi default).id) hgneg]
      rw [if_pos (c := k ∈ trade.receiveTiles ∧
        meta.ownerId = some (state.players.getD ti default).id) ⟨hkr, how⟩]
      rw [if_pos (c := k ∈ trade.receiveTiles) hkr]
    · by_cases hkg : k ∈ trade.giveTiles
      · have how : meta.ownerId = some (state.players.getD fi default).id := by
          have hv := validateTiles_mem hvg hkg
          rw [hmeta] at hv
          simpa using hv
        rw [if_pos (c := k ∈ trade.giveTiles ∧
          meta.ownerId = some (state.players.getD fi default).id) ⟨hkg, how⟩]
        dsimp only
        rw [if_neg (c := k ∈ trade.receiveTiles ∧
          some (state.players.getD ti default).id =
            some (state.players.getD ti default).id) (fun hc => hkr hc.1)]
        rw [if_neg (c := k ∈ trade.receiveTiles) hkr]
        rw [if_pos (c := k ∈ trade.giveTiles) hkg]
      · rw [if_neg (c := k ∈ trade.giveTiles ∧
          meta.ownerId = some (state.players.getD fi default).id)
            (fun hc => hkg hc.1)]
        rw [if_neg (c := k ∈ trade.receiveTiles ∧
          meta.ownerId = some (state.players.getD ti default).id)
            (fun hc => hkr hc.1)]
        rw [if_neg (c := k ∈ trade.receiveTiles) hkr]
        rw [if_neg (c := k ∈ trade.giveTiles) hkg]

/-- Closed instance of trade_accept_atomic: accepting after the
proposer can no longer afford the offered cash clears the proposal with
a log entry and no other change. -/
theorem trade_accept_atomic_witness :
    acceptTradeProposal c7PoorState =
      ({ c7PoorState with
          pendingTrade := none
          logs := addLog c7PoorState.logs ("Trade between " ++
            (c7PoorState.players.getD 0 default).name ++ " and " ++
            (c7PoorState.players.getD 1 default).name ++
            " failed due to insufficient funds.") }, false) :=
  trade_accept_atomic.1 c7PoorState c7Trade 0 1 rfl rfl rfl (Or.inl (by decide))

/-- C2: handling bankruptcy removes the bankrupt player from the list
and rewrites every property entry owned by that player to the creditor
when one exists, otherwise clears the owner, development level and
mortgage flag; when no creditor names the bankrupt player, the result
keeps every recorded owner active; and every operation of the store
preserves the invariant that each recorded owner id refers to a player
currently in the player list. -/
theorem bankruptcy_and_ownership_invariant :
    (∀ (players : List Player) (ps : PropMap) (bankruptId : String)
      (creditorId : Option String) (logs : List String) (bi : Nat),
      players.findIdx? (fun q => q.id == bankruptId) = some bi →
      (handleBankruptcy players ps bankruptId creditorId logs).players =
          players.eraseIdx bi ∧
        (handleBankruptcy players ps bankruptId creditorId logs).removedIndex =
          some bi ∧
        (handleBankruptcy players ps bankruptId creditorId logs).bankruptPlayerId =
          some bankruptId ∧
        ∀ k, lookupProp
            (handleBankruptcy players ps bankruptId creditorId logs).propertyState
              k =
          (lookupProp ps k).map (fun m =>
            if m.ownerId = some bankruptId then
              match creditorId.bind
                  (fun cid => players.find? (fun p => p.id == cid)) with
              | some c => { m with ownerId := some c.id }
              | none => { m with ownerId := none, houses := 0, mortgaged := false }
            else m)) ∧
    (∀ (players : List Player) (ps : PropMap) (bankruptId : String)
      (creditorId : Option String) (logs : List String),
      (∀ cid, creditorId = some cid → cid ≠ bankruptId) →
      ownersActive players ps →
      ownersActive (handleBankruptcy players ps bankruptId creditorId logs).players
        (handleBankruptcy players ps bankruptId creditorId logs).propertyState) ∧
    (∀ (B : Board) (dieA dieB luckA luckB : Nat),
      preservesOwners (fun s => rollDiceAndResolve B s dieA dieB luckA luckB)) ∧
    (∀ (B : Board), preservesOwners (fun s => confirmPurchase B s)) ∧
    preservesOwners declinePurchase ∧
    (∀ (B : Board) (tileId : String),
      preservesOwners (fun s => requestUpgrade B s tileId)) ∧
    (∀ (B : Board), preservesOwners (fun s => confirmUpgrade B s)) ∧
    preservesOwners declineUpgrade ∧
    (∀ (B : Board) (tileId : String),
      preservesOwners (fun s => mortgageProperty B s tileId)) ∧
    (∀ (B : Board) (tileId : String),
      preservesOwners (fun s => redeemProperty B s tileId)) ∧
    (∀ (B : Board) (fromPlayerId tileId : String),
      preservesOwners (fun s => claimPledgeFrom B s fromPlayerId tileId)) ∧
    (∀ (payload : TradePayload),
      preservesOwners (fun s => (sendTradeProposal s payload).fst)) ∧
    preservesOwners (fun s => (acceptTradeProposal s).fst) ∧
    (∀ (initiatorId : Option String),
      preservesOwners (fun s => (rejectTradeProposal s initiatorId).fst)) ∧
    (∀ (playerId : String), preservesOwners (fun s => leaveJailByPayment s playerId)) ∧
    (∀ (playerId : String), preservesOwners (fun s => useJailCard s playerId)) ∧
    preservesOwners dismissCard ∧
    (∀ (phase : GamePhase), preservesOwners (fun s => updatePhase s phase)) ∧
    (∀ (count : Nat), preservesOwners (fun s => setPlayerCount s count)) ∧
    (∀ (B : Board) (seed : PlayerSeed), preservesOwners (fun s => addPlayer B s seed)) ∧
    (∀ (B : Board) (seeds : List PlayerSeed),
      preservesOwners (fun s => setPlayers B s seeds)) ∧
    (∀ (B : Board), preservesOwners (fun s => reset B s)) := by
  refine ⟨?_, ?_, ?_, ?_, ?_, ?_, ?_, ?_, ?_, ?_, ?_, ?_, ?_, ?_, ?_, ?_, ?_,
    ?_, ?_, ?_, ?_, ?_⟩
  · intro players ps bankruptId creditorId logs bi hbi
    exact handleBankruptcy_spec hbi
  · intro players ps bankruptId creditorId logs hc ha
    exact ownersActive_handleBankruptcy hc ha
  · intro B dieA dieB luckA luckB state ha
    exact ownersActive_rollDiceAndResolve ha
  · intro B state ha
    exact ownersActive_confirmPurchase ha
  · intro state ha
    exact ownersActive_declinePurchase ha
  · intro B tileId state ha
    exact ownersActive_requestUpgrade ha
  · intro B state ha
    exact ownersActive_confirmUpgrade ha
  · intro state ha
    exact ownersActive_declineUpgrade ha
  · intro B tileId state ha
    exact ownersActive_mortgageProperty ha
  · intro B tileId state ha
    exact ownersActive_redeemProperty ha
  · intro B fromPlayerId tileId state ha
    exact ownersActive_claimPledgeFrom ha
  · intro payload state ha
    exact ownersActive_sendTradeProposal ha
  · intro state ha
    exact ownersActive_acceptTradeProposal ha
  · intro initiatorId state ha
    exact ownersActive_rejectTradeProposal ha
  · intro playerId state ha
    exact ownersActive_leaveJailByPayment ha
  · intro playerId state ha
    exact ownersActive_useJailCard ha
  · intro state ha
    exact ha
  · intro phase state ha
    exact ha
  · intro count state ha
    exact ha
  · intro B seed state ha
    exact ownersActive_addPlayer ha
  · intro B seeds state ha
    exact ownersActive_setPlayers
  · intro B state ha
    exact ownersActive_reset

/-- Closed instance of bankruptcy_and_ownership_invariant: bankrupting
the first of the two concrete players removes them from the list. -/
theorem bankruptcy_and_ownership_invariant_witness :
    (handleBankruptcy c1Players c1Props "a" (some "b") []).players =
      c1Players.eraseIdx 0 :=
  (bankruptcy_and_ownership_invariant.1 c1Players c1Props "a" (some "b") [] 0
    (by rfl)).1

end ZeiTown
